import Mathlib

/-!
Verification development for the ebs_encryption repository.

The repository contains two driver scripts built around the same workflow:

* src/scripts/encrypt_ebs_volumes.py   — volume-based scanner and engine
  (namespace EncryptEbs below);
* src/scripts/encrypt_instances_volumes.py — instance-based scanner and
  engine (namespace EncryptInstances below).

The cloud control plane is modelled as an explicit state (Cloud) holding
volumes, instances, snapshots and the set of snapshots with fast snapshot
restore (FSR) enabled.  Every mutating AWS call issued by the scripts is
recorded in a trace of CloudCall values, and turned into an explicit state
transition.  Calls that can fail in the scripts (stop_instances via
botocore ClientError or WaiterError, create_snapshot, the auto-scaling
membership query) are driven by behaviour fields stored in the state, so
that the error-handling paths of the scripts are reachable in the model.
-/

deriving instance DecidableEq for Except

/-- A resource tag, as in the AWS Tags lists used by both scripts. -/
structure Tag where
  key : String
  value : String
deriving DecidableEq

/-- One element of a volume's Attachments list. -/
structure Attachment where
  instanceId : String
  device : String
deriving DecidableEq

/-- Behaviour of the cloud when ec2.stop_instances is called for an
instance: success, a ClientError with code UnsupportedOperation, a
ClientError with another code, or a WaiterError while waiting for the
stopped state. -/
inductive StopBehavior
  | ok
  | unsupportedOperation
  | otherClientError
  | waiterTimeout
deriving DecidableEq

/-- An EC2 instance as described by describe_instances.  tags = none
models the absence of the Tags key in the response; instanceLifecycle =
some "spot" models a spot instance. -/
structure Ec2Instance where
  instanceId : String
  tags : Option (List Tag)
  instanceLifecycle : Option String
  state : String
  stopBehavior : StopBehavior
  availabilityZone : String
deriving DecidableEq

/-- An EBS volume as described by describe_volumes.  kmsKeyId = none
models the absence of the KmsKeyId key.  createSnapshotFails drives the
error path of ec2.create_snapshot for this volume. -/
structure Volume where
  volumeId : String
  encrypted : Bool
  kmsKeyId : Option String
  state : String
  attachments : List Attachment
  tags : Option (List Tag)
  size : Nat
  availabilityZone : String
  createSnapshotFails : Bool
deriving DecidableEq

/-- An EBS snapshot. -/
structure Snapshot where
  snapshotId : String
  volumeId : String
  encrypted : Bool
  size : Nat
deriving DecidableEq

/-- Answer of the autoscaling describe_auto_scaling_instances call for an
instance: the instance is in a group, it is not, or the call raises a
botocore ClientError. -/
inductive AsgAnswer
  | member
  | notMember
  | clientError
deriving DecidableEq

/-- The modelled cloud control-plane state.  fsr is the set of
(snapshot id, availability zone) pairs with fast snapshot restore
enabled; asg records the per-instance behaviour of the autoscaling API;
nextId feeds the generation of fresh snapshot and volume ids. -/
structure Cloud where
  volumes : List Volume
  instances : List Ec2Instance
  snapshots : List Snapshot
  fsr : List (String × String)
  asg : List (String × AsgAnswer)
  nextId : Nat
deriving DecidableEq

/-- Errors surfaced by the modelled boto3 calls: a botocore ClientError
with its error code, a WaiterError, or a parameter validation error
(raised before the request is sent, not a ClientError). -/
inductive CloudErr
  | clientError (code : String)
  | waiterError
  | paramValidationError
deriving DecidableEq

/-- One mutating cloud call, as recorded in the trace of a run. -/
inductive CloudCall
  | stopInstances (instanceId : String)
  | createSnapshot (volumeId : String)
  | copySnapshot (snapshotId : String)
  | enableFastSnapshotRestores (snapshotId : String)
  | deleteSnapshot (snapshotId : String)
  | detachVolume (volumeId : String)
  | createVolume (snapshotId : String)
  | createTags (resourceId : String)
  | attachVolume (volumeId : String) (instanceId : String) (device : String)
  | disableFastSnapshotRestores (snapshotId : String)
  | startInstances (instanceId : String)
deriving DecidableEq

/-- Lookup of an instance by id (describe_instances). -/
def Cloud.findInstance (c : Cloud) (iid : String) : Option Ec2Instance :=
  c.instances.find? (fun i => i.instanceId == iid)

/-- Lookup of a volume by id (describe_volumes). -/
def Cloud.findVolume (c : Cloud) (vid : String) : Option Volume :=
  c.volumes.find? (fun v => v.volumeId == vid)

/-- Lookup of a snapshot by id (describe_snapshots). -/
def Cloud.findSnapshot (c : Cloud) (sid : String) : Option Snapshot :=
  c.snapshots.find? (fun s => s.snapshotId == sid)

/-- State update setting the state field of one instance. -/
def Cloud.setInstanceState (c : Cloud) (iid : String) (st : String) : Cloud :=
  { c with instances :=
      c.instances.map (fun i => if i.instanceId = iid then { i with state := st } else i) }

/-- State update applying f to the volume with the given id. -/
def Cloud.updateVolume (c : Cloud) (vid : String) (f : Volume → Volume) : Cloud :=
  { c with volumes :=
      c.volumes.map (fun v => if v.volumeId = vid then f v else v) }

/-- Answer of the autoscaling API for one instance; an instance absent
from the table is reported as not in any auto-scaling group, as AWS
returns an empty AutoScalingInstances list for unknown ids. -/
def Cloud.asgAnswer (c : Cloud) (iid : String) : AsgAnswer :=
  match c.asg.find? (fun p => p.1 == iid) with
  | some p => p.2
  | none => AsgAnswer.notMember

namespace EncryptEbs

/-- Model of get_instance_name in encrypt_ebs_volumes.py: when the
described instance has no Tags key the sentinel "Name Unknown" is
returned; when tags are present but none has key Name, the function
returns None (modelled as Option.none).  A missing instance makes
describe_instances raise a ClientError. -/
def get_instance_name (c : Cloud) (instance_id : String) :
    Except CloudErr (Option String) :=
  match c.findInstance instance_id with
  | none => Except.error (CloudErr.clientError "InvalidInstanceID.NotFound")
  | some inst =>
    match inst.tags with
    | none => Except.ok (some "Name Unknown")
    | some tags =>
      match tags.find? (fun t => t.key == "Name") with
      | some t => Except.ok (some t.value)
      | none => Except.ok none

/-- Model of get_volume_name in encrypt_ebs_volumes.py: sentinel
"Name Unknown" when the volume has no Tags key, None when tags are
present without a Name tag. -/
def get_volume_name (c : Cloud) (volume_id : String) :
    Except CloudErr (Option String) :=
  match c.findVolume volume_id with
  | none => Except.error (CloudErr.clientError "InvalidVolume.NotFound")
  | some v =>
    match v.tags with
    | none => Except.ok (some "Name Unknown")
    | some tags =>
      match tags.find? (fun t => t.key == "Name") with
      | some t => Except.ok (some t.value)
      | none => Except.ok none

/-- A scanner output row: volume id, optional attached instance id,
optional instance name, optional volume name — the tuple shape built by
get_unencrypted_ebs_volumes. -/
abbrev Candidate := String × Option String × Option String × Option String

/-- The in-loop filter of get_unencrypted_ebs_volumes: no KmsKeyId key
and state "in-use".  The encrypted == false condition is applied
separately, by the server-side Filters of the describe_volumes
paginator. -/
def scan_filter (v : Volume) : Bool :=
  v.kmsKeyId.isNone && v.state == "in-use"

/-- The body of the pagination loop of get_unencrypted_ebs_volumes,
running over the volumes returned by the encrypted=false filter. -/
def get_unencrypted_ebs_volumes_aux (c : Cloud) :
    List Volume → Except CloudErr (List Candidate)
  | [] => Except.ok []
  | v :: rest =>
    if scan_filter v then
      let instance_id := (v.attachments.head?).map (fun a => a.instanceId)
      match (match instance_id with
             | some iid => get_instance_name c iid
             | none => Except.ok none) with
      | Except.error e => Except.error e
      | Except.ok instance_name =>
        match get_volume_name c v.volumeId with
        | Except.error e => Except.error e
        | Except.ok volume_name =>
          match get_unencrypted_ebs_volumes_aux c rest with
          | Except.error e => Except.error e
          | Except.ok tail =>
            Except.ok ((v.volumeId, instance_id, instance_name, volume_name) :: tail)
    else get_unencrypted_ebs_volumes_aux c rest

/-- Model of get_unencrypted_ebs_volumes in encrypt_ebs_volumes.py: the
describe_volumes paginator is called with the server-side filter
encrypted=false, each page entry is kept when it has no KmsKeyId and is
in-use, names are resolved, and the function returns
unencrypted_volumes[:4] — the first four rows. -/
def get_unencrypted_ebs_volumes (c : Cloud) : Except CloudErr (List Candidate) :=
  match get_unencrypted_ebs_volumes_aux c
      (c.volumes.filter (fun v => v.encrypted == false)) with
  | Except.error e => Except.error e
  | Except.ok l => Except.ok (l.take 4)

/-- Model of is_instance_managed_by_asg_or_spot in encrypt_ebs_volumes.py:
describe the instance (raising when it does not exist), then test the
spot lifecycle and the aws:autoscaling:groupName tag. -/
def is_instance_managed_by_asg_or_spot (c : Cloud) (instance_id : String) :
    Except CloudErr Bool :=
  match c.findInstance instance_id with
  | none => Except.error (CloudErr.clientError "InvalidInstanceID.NotFound")
  | some inst =>
    if inst.instanceLifecycle = some "spot" then Except.ok true
    else
      match inst.tags with
      | some tags => Except.ok (tags.any (fun t => t.key == "aws:autoscaling:groupName"))
      | none => Except.ok false

/-- Model of stop_instance in encrypt_ebs_volumes.py.  The try block
covers the eligibility check and the stop call; a ClientError with code
UnsupportedOperation is absorbed into the returned False, any other
ClientError is re-raised, and a WaiterError while waiting for the
stopped state is absorbed into False.  Calling the function with
instance_id None makes describe_instances raise a parameter validation
error, which the ClientError handler does not catch.  Issued stop
requests are recorded in the trace even when they fail. -/
def stop_instance (c : Cloud) (instance_id : Option String) :
    Cloud × List CloudCall × Except CloudErr Bool :=
  match instance_id with
  | none => (c, [], Except.error CloudErr.paramValidationError)
  | some iid =>
    match is_instance_managed_by_asg_or_spot c iid with
    | Except.error (CloudErr.clientError code) =>
      if code = "UnsupportedOperation" then (c, [], Except.ok false)
      else (c, [], Except.error (CloudErr.clientError code))
    | Except.error e => (c, [], Except.error e)
    | Except.ok true => (c, [], Except.ok false)
    | Except.ok false =>
      match c.findInstance iid with
      | none => (c, [], Except.error (CloudErr.clientError "InvalidInstanceID.NotFound"))
      | some inst =>
        match inst.stopBehavior with
        | StopBehavior.ok =>
          (c.setInstanceState iid "stopped", [CloudCall.stopInstances iid], Except.ok true)
        | StopBehavior.unsupportedOperation =>
          (c, [CloudCall.stopInstances iid], Except.ok false)
        | StopBehavior.otherClientError =>
          (c, [CloudCall.stopInstances iid],
           Except.error (CloudErr.clientError "IncorrectInstanceState"))
        | StopBehavior.waiterTimeout =>
          (c.setInstanceState iid "stopping", [CloudCall.stopInstances iid], Except.ok false)

/-- Model of create_snapshot in encrypt_ebs_volumes.py: a fresh snapshot
of the volume, unencrypted; the per-volume behaviour flag drives the
error path of the call. -/
def create_snapshot (c : Cloud) (volume_id : String) :
    Cloud × List CloudCall × Except CloudErr String :=
  match c.findVolume volume_id with
  | none => (c, [], Except.error (CloudErr.clientError "InvalidVolume.NotFound"))
  | some v =>
    if v.createSnapshotFails then
      (c, [CloudCall.createSnapshot volume_id],
       Except.error (CloudErr.clientError "SnapshotCreationPerVolumeRateExceeded"))
    else
      let sid := "snap-" ++ toString c.nextId
      ({ c with snapshots := ⟨sid, volume_id, false, v.size⟩ :: c.snapshots,
                nextId := c.nextId + 1 },
       [CloudCall.createSnapshot volume_id], Except.ok sid)

/-- Model of copy_snapshot_with_encryption in encrypt_ebs_volumes.py: a
fresh encrypted copy of the snapshot, then, when enable_fsr is set and
the zone list is non-empty, an enable_fast_snapshot_restores call for
the new snapshot in those zones. -/
def copy_snapshot_with_encryption (c : Cloud) (volume_id snapshot_id : String)
    (enable_fsr : Bool) (fsr_availability_zones : List String) :
    Cloud × List CloudCall × String :=
  let esid := "snap-" ++ toString c.nextId
  let size := ((c.findSnapshot snapshot_id).map (fun s => s.size)).getD 0
  let c1 := { c with snapshots := ⟨esid, volume_id, true, size⟩ :: c.snapshots,
                     nextId := c.nextId + 1 }
  if enable_fsr && !fsr_availability_zones.isEmpty then
    ({ c1 with fsr := c1.fsr ++ fsr_availability_zones.map (fun z => (esid, z)) },
     [CloudCall.copySnapshot snapshot_id, CloudCall.enableFastSnapshotRestores esid],
     esid)
  else (c1, [CloudCall.copySnapshot snapshot_id], esid)

/-- Model of delete_snapshot in encrypt_ebs_volumes.py. -/
def delete_snapshot (c : Cloud) (snapshot_id : String) : Cloud × List CloudCall :=
  ({ c with snapshots := c.snapshots.filter (fun s => !(s.snapshotId == snapshot_id)) },
   [CloudCall.deleteSnapshot snapshot_id])

/-- Model of detach_volume in encrypt_ebs_volumes.py: detaching a volume
with no attachment raises an IncorrectState ClientError; otherwise the
volume is detached and, after the waiter, available. -/
def detach_volume (c : Cloud) (volume_id : String) :
    Cloud × List CloudCall × Except CloudErr Unit :=
  match c.findVolume volume_id with
  | none => (c, [], Except.error (CloudErr.clientError "InvalidVolume.NotFound"))
  | some v =>
    if v.attachments.isEmpty then
      (c, [CloudCall.detachVolume volume_id],
       Except.error (CloudErr.clientError "IncorrectState"))
    else
      (c.updateVolume volume_id (fun w => { w with attachments := [], state := "available" }),
       [CloudCall.detachVolume volume_id], Except.ok ())

/-- Model of create_encrypted_volume in encrypt_ebs_volumes.py: a fresh
encrypted volume from the encrypted snapshot, in the given zone, with
the given KMS key. -/
def create_encrypted_volume (c : Cloud) (snapshot_id availability_zone kms_key_id : String) :
    Cloud × List CloudCall × String :=
  let vid := "vol-" ++ toString c.nextId
  let size := ((c.findSnapshot snapshot_id).map (fun s => s.size)).getD 0
  let newVol : Volume :=
    ⟨vid, true, some kms_key_id, "available", [], none, size, availability_zone, false⟩
  ({ c with volumes := newVol :: c.volumes, nextId := c.nextId + 1 },
   [CloudCall.createVolume snapshot_id], vid)

/-- Model of copy_tags in encrypt_ebs_volumes.py: describe the source
volume, and issue create_tags on the target only when the source has a
Tags key. -/
def copy_tags (c : Cloud) (source_volume_id target_volume_id : String) :
    Cloud × List CloudCall × Except CloudErr Unit :=
  match c.findVolume source_volume_id with
  | none => (c, [], Except.error (CloudErr.clientError "InvalidVolume.NotFound"))
  | some src =>
    match src.tags with
    | some ts =>
      (c.updateVolume target_volume_id (fun w => { w with tags := some ts }),
       [CloudCall.createTags target_volume_id], Except.ok ())
    | none => (c, [], Except.ok ())

/-- Model of attach_volume in encrypt_ebs_volumes.py. -/
def attach_volume (c : Cloud) (volume_id iid device : String) :
    Cloud × List CloudCall :=
  (c.updateVolume volume_id
     (fun w => { w with attachments := [⟨iid, device⟩], state := "in-use" }),
   [CloudCall.attachVolume volume_id iid device])

/-- Model of disable_fsr in encrypt_ebs_volumes.py: disable fast
snapshot restore for the snapshot in the listed zones. -/
def disable_fsr (c : Cloud) (snapshot_id : String) (fsr_availability_zones : List String) :
    Cloud × List CloudCall :=
  let keep : String × String → Bool :=
    fun p => !(p.1 == snapshot_id && fsr_availability_zones.contains p.2)
  ({ c with fsr := c.fsr.filter keep },
   [CloudCall.disableFastSnapshotRestores snapshot_id])

/-- Model of start_instance in encrypt_ebs_volumes.py: starts the
instance when an id is given, a no-op otherwise. -/
def start_instance (c : Cloud) (instance_id : Option String) : Cloud × List CloudCall :=
  match instance_id with
  | some iid => (c.setInstanceState iid "running", [CloudCall.startInstances iid])
  | none => (c, [])

/-- The body of the per-volume loop of encrypt_ebs_volumes: stop the
instance (a False result makes the loop continue to the next volume,
classified here as Except.ok false, the SKIPPED outcome), then snapshot,
re-describe the volume, copy with encryption and enable FSR, delete the
unencrypted snapshot, record the device of the first attachment, detach,
create the encrypted volume, copy tags, attach (only when both an
instance id and a device were recorded), disable FSR and restart the
instance.  Except.ok true is the DONE outcome; Except.error is an
uncaught exception propagating out of the loop body. -/
def process_volume (c : Cloud) (kms_key_id : String) (cand : Candidate) :
    Cloud × List CloudCall × Except CloudErr Bool :=
  let volume_id := cand.1
  let instance_id := cand.2.1
  match stop_instance c instance_id with
  | (c1, tr1, Except.error e) => (c1, tr1, Except.error e)
  | (c1, tr1, Except.ok false) => (c1, tr1, Except.ok false)
  | (c1, tr1, Except.ok true) =>
    match create_snapshot c1 volume_id with
    | (c2, tr2, Except.error e) => (c2, tr1 ++ tr2, Except.error e)
    | (c2, tr2, Except.ok snapshot_id) =>
      match c2.findVolume volume_id with
      | none => (c2, tr1 ++ tr2, Except.error (CloudErr.clientError "InvalidVolume.NotFound"))
      | some volume_info =>
        let availability_zone := volume_info.availabilityZone
        let fsr_availability_zones := [availability_zone]
        match copy_snapshot_with_encryption c2 volume_id snapshot_id true
            fsr_availability_zones with
        | (c3, tr3, encrypted_snapshot_id) =>
          match delete_snapshot c3 snapshot_id with
          | (c4, tr4) =>
            let device := (volume_info.attachments.head?).map (fun a => a.device)
            match detach_volume c4 volume_id with
            | (c5, tr5, Except.error e) =>
              (c5, tr1 ++ tr2 ++ tr3 ++ tr4 ++ tr5, Except.error e)
            | (c5, tr5, Except.ok _) =>
              match create_encrypted_volume c5 encrypted_snapshot_id availability_zone
                  kms_key_id with
              | (c6, tr6, encrypted_volume_id) =>
                match copy_tags c6 volume_id encrypted_volume_id with
                | (c7, tr7, Except.error e) =>
                  (c7, tr1 ++ tr2 ++ tr3 ++ tr4 ++ tr5 ++ tr6 ++ tr7, Except.error e)
                | (c7, tr7, Except.ok _) =>
                  match (match instance_id, device with
                         | some iid, some dev => attach_volume c7 encrypted_volume_id iid dev
                         | _, _ => (c7, [])) with
                  | (c8, tr8) =>
                    match disable_fsr c8 encrypted_snapshot_id fsr_availability_zones with
                    | (c9, tr9) =>
                      match start_instance c9 instance_id with
                      | (c10, tr10) =>
                        (c10,
                         tr1 ++ tr2 ++ tr3 ++ tr4 ++ tr5 ++ tr6 ++ tr7 ++ tr8 ++ tr9 ++ tr10,
                         Except.ok true)

/-- The candidate loop of encrypt_ebs_volumes: the loop body has no
exception handler, so an error raised while processing one volume
aborts the whole batch (returned as some error); skipped and done
volumes let the loop continue. -/
def encrypt_loop (c : Cloud) (kms_key_id : String) :
    List Candidate → Cloud × List CloudCall × Option CloudErr
  | [] => (c, [], none)
  | cand :: rest =>
    match process_volume c kms_key_id cand with
    | (c1, tr1, Except.error e) => (c1, tr1, some e)
    | (c1, tr1, Except.ok _) =>
      match encrypt_loop c1 kms_key_id rest with
      | (c2, tr2, r) => (c2, tr1 ++ tr2, r)

/-- Model of encrypt_ebs_volumes in encrypt_ebs_volumes.py: scan, then
run the candidate loop. -/
def encrypt_ebs_volumes (c : Cloud) (kms_key_id : String) :
    Cloud × List CloudCall × Option CloudErr :=
  match get_unencrypted_ebs_volumes c with
  | Except.error e => (c, [], some e)
  | Except.ok cands => encrypt_loop c kms_key_id cands

/-- Model of main in encrypt_ebs_volumes.py: the script runs
encrypt_ebs_volumes with the hard-coded key alias directly; it never
prompts the operator for confirmation. -/
def main (c : Cloud) : Cloud × List CloudCall × Option CloudErr :=
  encrypt_ebs_volumes c "alias/aws/ebs"

end EncryptEbs

namespace EncryptInstances

/-- Model of get_instance_name in encrypt_instances_volumes.py: iterate
over instance.tags or [] and return the value of the first Name tag,
defaulting to the sentinel "Name Unknown".  The function always returns
a string, never None. -/
def get_instance_name (inst : Ec2Instance) : String :=
  match (inst.tags.getD []).find? (fun t => t.key == "Name") with
  | some t => t.value
  | none => "Name Unknown"

/-- Model of get_volume_name in encrypt_instances_volumes.py: the value
of the first Name tag, defaulting to the sentinel "Unknown Name". -/
def get_volume_name (v : Volume) : String :=
  match (v.tags.getD []).find? (fun t => t.key == "Name") with
  | some t => t.value
  | none => "Unknown Name"

/-- The instance.volumes.all() collection: the volumes attached to the
instance. -/
def instanceVolumes (c : Cloud) (iid : String) : List Volume :=
  c.volumes.filter (fun v => v.attachments.any (fun a => a.instanceId == iid))

/-- Model of gather_unencrypted_info in encrypt_instances_volumes.py:
for every instance, collect its attached volumes with encrypted false;
instances with no such volume are dropped. -/
def gather_unencrypted_info (c : Cloud) :
    List (String × String × List (String × String × Nat)) :=
  c.instances.foldr
    (fun inst acc =>
      let unencrypted_volumes :=
        ((instanceVolumes c inst.instanceId).filter (fun v => !v.encrypted)).map
          (fun v => (v.volumeId, get_volume_name v, v.size))
      if unencrypted_volumes.isEmpty then acc
      else (inst.instanceId, get_instance_name inst, unencrypted_volumes) :: acc)
    []

/-- Model of is_part_of_auto_scaling_group in
encrypt_instances_volumes.py: query the autoscaling API; a ClientError
raised by the query is caught, logged, and turned into False. -/
def is_part_of_auto_scaling_group (c : Cloud) (instance_id : String) : Bool :=
  match c.asgAnswer instance_id with
  | AsgAnswer.member => true
  | AsgAnswer.notMember => false
  | AsgAnswer.clientError => false

/-- Outcome of one encrypt_volumes job in encrypt_instances_volumes.py:
skipped at the auto-scaling gate, skipped at the spot gate, completed,
or aborted by a raised exception (which the caller catches). -/
inductive EVResult
  | skippedAsg
  | skippedSpot
  | completed
  | err (e : CloudErr)
deriving DecidableEq

/-- The body of the per-volume loop of encrypt_volumes in
encrypt_instances_volumes.py, for one volume of the instance (volume
attribute values are the ones fetched when the collection page was
read).  Encrypted volumes are passed over.  For an unencrypted volume:
snapshot, encrypted copy, enable FSR, delete the unencrypted snapshot,
record the device of the first attachment, detach, create the encrypted
volume, disable FSR, copy tags when the source has any, and attach the
new volume at the recorded device. -/
def encrypt_one_volume (c : Cloud) (iid az kms_key_id : String) (v : Volume) :
    Cloud × List CloudCall × Option CloudErr :=
  if v.encrypted then (c, [], none)
  else if v.createSnapshotFails then
    (c, [CloudCall.createSnapshot v.volumeId],
     some (CloudErr.clientError "SnapshotCreationPerVolumeRateExceeded"))
  else
    let sid := "snap-" ++ toString c.nextId
    let c1 := { c with snapshots := ⟨sid, v.volumeId, false, v.size⟩ :: c.snapshots,
                       nextId := c.nextId + 1 }
    let esid := "snap-" ++ toString c1.nextId
    let c2 := { c1 with snapshots := ⟨esid, v.volumeId, true, v.size⟩ :: c1.snapshots,
                        nextId := c1.nextId + 1 }
    let c3 := { c2 with fsr := c2.fsr ++ [(esid, az)] }
    let c4 := { c3 with snapshots := c3.snapshots.filter (fun s => !(s.snapshotId == sid)) }
    let trHead := [CloudCall.createSnapshot v.volumeId, CloudCall.copySnapshot sid,
                   CloudCall.enableFastSnapshotRestores esid, CloudCall.deleteSnapshot sid]
    match v.attachments.head? with
    | none =>
      -- device_name is None; detach_from_instance(Device=None, ...) raises
      -- a parameter validation error before any request is sent.
      (c4, trHead, some CloudErr.paramValidationError)
    | some a =>
      let c5 := c4.updateVolume v.volumeId
        (fun w => { w with attachments := [], state := "available" })
      let evid := "vol-" ++ toString c5.nextId
      let newVol : Volume :=
        ⟨evid, true, some kms_key_id, "available", [], none, v.size, v.availabilityZone, false⟩
      let c6 := { c5 with volumes := newVol :: c5.volumes, nextId := c5.nextId + 1 }
      let keepFsr : String × String → Bool := fun p => !(p.1 == esid && p.2 == az)
      let c7 := { c6 with fsr := c6.fsr.filter keepFsr }
      let tagCalls : List CloudCall :=
        if (v.tags.getD []).isEmpty then [] else [CloudCall.createTags evid]
      let c8 := if (v.tags.getD []).isEmpty then c7
                else c7.updateVolume evid (fun w => { w with tags := v.tags })
      let c9 := c8.updateVolume evid
        (fun w => { w with attachments := [⟨iid, a.device⟩], state := "in-use" })
      (c9,
       trHead ++ [CloudCall.detachVolume v.volumeId, CloudCall.createVolume esid,
                  CloudCall.disableFastSnapshotRestores esid]
              ++ tagCalls ++ [CloudCall.attachVolume evid iid a.device],
       none)

/-- The per-volume loop of encrypt_volumes: a raised error aborts the
rest of the loop and propagates. -/
def volumes_loop (c : Cloud) (iid az kms_key_id : String) :
    List Volume → Cloud × List CloudCall × Option CloudErr
  | [] => (c, [], none)
  | v :: rest =>
    match encrypt_one_volume c iid az kms_key_id v with
    | (c1, tr1, some e) => (c1, tr1, some e)
    | (c1, tr1, none) =>
      match volumes_loop c1 iid az kms_key_id rest with
      | (c2, tr2, r) => (c2, tr1 ++ tr2, r)

/-- Model of encrypt_volumes in encrypt_instances_volumes.py: the
auto-scaling gate runs first (before any describe of the instance),
then the spot gate; the instance is stopped only when its state is not
already "stopped"; then the volume loop runs over the instance's
attached volumes, and the instance is restarted. -/
def encrypt_volumes (c : Cloud) (instance_id kms_key_id : String) :
    Cloud × List CloudCall × EVResult :=
  if is_part_of_auto_scaling_group c instance_id then (c, [], EVResult.skippedAsg)
  else
    match c.findInstance instance_id with
    | none => (c, [], EVResult.err (CloudErr.clientError "InvalidInstanceID.NotFound"))
    | some inst =>
      if inst.instanceLifecycle = some "spot" then (c, [], EVResult.skippedSpot)
      else
        let stopRes : Cloud × List CloudCall × Option CloudErr :=
          if inst.state ≠ "stopped" then
            match inst.stopBehavior with
            | StopBehavior.ok =>
              (c.setInstanceState instance_id "stopped",
               [CloudCall.stopInstances instance_id], none)
            | StopBehavior.unsupportedOperation =>
              (c, [CloudCall.stopInstances instance_id],
               some (CloudErr.clientError "UnsupportedOperation"))
            | StopBehavior.otherClientError =>
              (c, [CloudCall.stopInstances instance_id],
               some (CloudErr.clientError "IncorrectInstanceState"))
            | StopBehavior.waiterTimeout =>
              (c, [CloudCall.stopInstances instance_id], some CloudErr.waiterError)
          else (c, [], none)
        match stopRes with
        | (c1, tr1, some e) => (c1, tr1, EVResult.err e)
        | (c1, tr1, none) =>
          match volumes_loop c1 instance_id inst.availabilityZone kms_key_id
              (instanceVolumes c1 instance_id) with
          | (c2, tr2, some e) => (c2, tr1 ++ tr2, EVResult.err e)
          | (c2, tr2, none) =>
            (c2.setInstanceState instance_id "running",
             tr1 ++ tr2 ++ [CloudCall.startInstances instance_id],
             EVResult.completed)

/-- The per-instance loop of main in encrypt_instances_volumes.py: each
encrypt_volumes call sits in a try/except that logs the error, so the
loop always continues; the returned list records, per job and in queue
order, the error the handler caught (none when the job raised
nothing). -/
def run_jobs (c : Cloud) (kms_key_id : String) :
    List String → Cloud × List CloudCall × List (Option CloudErr)
  | [] => (c, [], [])
  | iid :: rest =>
    match encrypt_volumes c iid kms_key_id with
    | (c1, tr1, r) =>
      let caught : Option CloudErr :=
        match r with
        | EVResult.err e => some e
        | _ => none
      match run_jobs c1 kms_key_id rest with
      | (c2, tr2, caughts) => (c2, tr1 ++ tr2, caught :: caughts)

/-- Python str.lower restricted to the ASCII answers compared by main. -/
def lower_str (s : String) : String :=
  String.mk (s.data.map Char.toLower)

/-- Model of main in encrypt_instances_volumes.py: after reading the
configuration, the operator is prompted; unless the lowered answer is
"yes" or "y" the run is cancelled with no cloud call; otherwise the
scanner runs and every gathered instance is processed in order. -/
def main (c : Cloud) (user_input kms_key_id : String) :
    Cloud × List CloudCall × List (Option CloudErr) :=
  if ¬(lower_str user_input = "yes" ∨ lower_str user_input = "y") then (c, [], [])
  else
    run_jobs c kms_key_id ((gather_unencrypted_info c).map (fun t => t.1))

end EncryptInstances

/-- True exactly for the stop_instances call, used to state that a
stage or a whole job issued no stop request. -/
def CloudCall.isStop : CloudCall → Bool
  | CloudCall.stopInstances _ => true
  | _ => false

/-!
Concrete fixtures used by the counterexamples and witnesses below.
Volume fields: id, encrypted, kmsKeyId, state, attachments, tags, size,
availability zone, create_snapshot behaviour.  Instance fields: id,
tags, lifecycle, state, stop behaviour, availability zone.
-/

/-- An ordinary unencrypted, attached, in-use volume. -/
def exVolPlain : Volume :=
  ⟨"vol-1", false, none, "in-use", [⟨"i-1", "/dev/sdf"⟩], some [⟨"Name", "data"⟩], 8,
   "eu-west-1a", false⟩

/-- An ordinary on-demand instance that stops cleanly. -/
def exInstPlain : Ec2Instance :=
  ⟨"i-1", some [⟨"Name", "web"⟩], none, "running", StopBehavior.ok, "eu-west-1a"⟩

/-- Cloud for the C2 counterexample: two unencrypted in-use volumes on
two instances; stopping the first instance raises a ClientError whose
code is not UnsupportedOperation. -/
def c2Cloud : Cloud :=
  ⟨[⟨"vol-A", false, none, "in-use", [⟨"i-A", "/dev/sda"⟩], none, 8, "eu-west-1a", false⟩,
    ⟨"vol-B", false, none, "in-use", [⟨"i-B", "/dev/sdb"⟩], none, 8, "eu-west-1a", false⟩],
   [⟨"i-A", none, none, "running", StopBehavior.otherClientError, "eu-west-1a"⟩,
    ⟨"i-B", none, none, "running", StopBehavior.ok, "eu-west-1a"⟩],
   [], [], [], 0⟩

lemma run_jobs_cons (c : Cloud) (kms_key_id i : String) (rest : List String) :
    EncryptInstances.run_jobs c kms_key_id (i :: rest) =
      ((EncryptInstances.run_jobs (EncryptInstances.encrypt_volumes c i kms_key_id).1
          kms_key_id rest).1,
       (EncryptInstances.encrypt_volumes c i kms_key_id).2.1 ++
         (EncryptInstances.run_jobs (EncryptInstances.encrypt_volumes c i kms_key_id).1
            kms_key_id rest).2.1,
       (match (EncryptInstances.encrypt_volumes c i kms_key_id).2.2 with
        | EncryptInstances.EVResult.err e => some e
        | _ => none) ::
         (EncryptInstances.run_jobs (EncryptInstances.encrypt_volumes c i kms_key_id).1
            kms_key_id rest).2.2) := rfl

lemma run_jobs_length (kms_key_id : String) :
    ∀ (jobs : List String) (c : Cloud),
      (EncryptInstances.run_jobs c kms_key_id jobs).2.2.length = jobs.length := by
  intro jobs
  induction jobs with
  | nil => intro c; rfl
  | cons i rest ih =>
    intro c
    rw [run_jobs_cons]
    simp [ih]

lemma run_jobs_append (kms_key_id : String) :
    ∀ (xs ys : List String) (c : Cloud),
      EncryptInstances.run_jobs c kms_key_id (xs ++ ys) =
        ((EncryptInstances.run_jobs (EncryptInstances.run_jobs c kms_key_id xs).1
            kms_key_id ys).1,
         (EncryptInstances.run_jobs c kms_key_id xs).2.1 ++
           (EncryptInstances.run_jobs (EncryptInstances.run_jobs c kms_key_id xs).1
              kms_key_id ys).2.1,
         (EncryptInstances.run_jobs c kms_key_id xs).2.2 ++
           (EncryptInstances.run_jobs (EncryptInstances.run_jobs c kms_key_id xs).1
              kms_key_id ys).2.2) := by
  intro xs
  induction xs with
  | nil => intro ys c; simp [EncryptInstances.run_jobs]
  | cons i rest ih =>
    intro ys c
    rw [List.cons_append, run_jobs_cons, run_jobs_cons, ih]
    simp [List.append_assoc]

/-- C2: the claim that a per-job failure is caught by the caller and
never prevents later queue entries from being processed is FALSE for the
volume-based driver: the candidate loop of encrypt_ebs_volumes has no
exception handler, so the ClientError raised while stopping the first
candidate's instance aborts the whole batch.  On c2Cloud the scanner
queues two candidates, yet the run ends with the error after the single
stop attempt for the first one, and the second volume is never
processed. -/
theorem c2_counterexample :
    (EncryptEbs.get_unencrypted_ebs_volumes c2Cloud).map List.length = Except.ok 2 ∧
    EncryptEbs.encrypt_ebs_volumes c2Cloud "kms" =
      (c2Cloud, [CloudCall.stopInstances "i-A"],
       some (CloudErr.clientError "IncorrectInstanceState")) := by
  constructor
  · rfl
  · rfl

/-- C2 (amended): in the instance-based driver the claim holds: every
encrypt_volumes call of the per-instance loop of main sits in a
try/except, so run_jobs records one (possibly caught-error) outcome per
queued job, and processing a queue xs ++ ys always continues into ys
with the state left by xs, whatever errors xs produced.  In the
volume-based driver (encrypt_ebs_volumes) a raised per-job error aborts
the remaining queue, as the counterexample shows. -/
theorem c2_amended_per_job_errors_caught_in_instances_driver :
    (∀ (c : Cloud) (kms_key_id : String) (jobs : List String),
       (EncryptInstances.run_jobs c kms_key_id jobs).2.2.length = jobs.length) ∧
    (∀ (c : Cloud) (kms_key_id : String) (xs ys : List String),
       EncryptInstances.run_jobs c kms_key_id (xs ++ ys) =
         ((EncryptInstances.run_jobs (EncryptInstances.run_jobs c kms_key_id xs).1
             kms_key_id ys).1,
          (EncryptInstances.run_jobs c kms_key_id xs).2.1 ++
            (EncryptInstances.run_jobs (EncryptInstances.run_jobs c kms_key_id xs).1
               kms_key_id ys).2.1,
          (EncryptInstances.run_jobs c kms_key_id xs).2.2 ++
            (EncryptInstances.run_jobs (EncryptInstances.run_jobs c kms_key_id xs).1
               kms_key_id ys).2.2)) :=
  ⟨fun c kms_key_id jobs => run_jobs_length kms_key_id jobs c,
   fun c kms_key_id xs ys => run_jobs_append kms_key_id xs ys c⟩

/-- C4: a job rejected by the eligibility check (auto-scaling membership
or spot lifecycle) ends with the cloud state unchanged and an empty call
trace: no stop, snapshot, copy, detach, create, tag write, attach or
start is issued.  The first conjunct covers the volume-based engine
(stop_instance returns False before any call when
is_instance_managed_by_asg_or_spot answers True); the other two cover
the two gates of the instance-based engine. -/
theorem c4_skipped_job_issues_no_mutating_calls :
    (∀ (c : Cloud) (kms_key_id : String) (cand : EncryptEbs.Candidate) (iid : String),
       cand.2.1 = some iid →
       EncryptEbs.is_instance_managed_by_asg_or_spot c iid = Except.ok true →
       EncryptEbs.process_volume c kms_key_id cand = (c, [], Except.ok false)) ∧
    (∀ (c : Cloud) (iid kms_key_id : String),
       EncryptInstances.is_part_of_auto_scaling_group c iid = true →
       EncryptInstances.encrypt_volumes c iid kms_key_id =
         (c, [], EncryptInstances.EVResult.skippedAsg)) ∧
    (∀ (c : Cloud) (iid kms_key_id : String) (inst : Ec2Instance),
       EncryptInstances.is_part_of_auto_scaling_group c iid = false →
       c.findInstance iid = some inst →
       inst.instanceLifecycle = some "spot" →
       EncryptInstances.encrypt_volumes c iid kms_key_id =
         (c, [], EncryptInstances.EVResult.skippedSpot)) := by
  refine ⟨?_, ?_, ?_⟩
  · intro c kms_key_id cand iid h1 h2
    simp only [EncryptEbs.process_volume, EncryptEbs.stop_instance, h1, h2]
  · intro c iid kms_key_id h
    unfold EncryptInstances.encrypt_volumes
    rw [h]
    simp
  · intro c iid kms_key_id inst h1 h2 h3
    unfold EncryptInstances.encrypt_volumes
    rw [h1, h2]
    simp [h3]

/-- Fixture for the first C4 witness: a spot instance with an attached
unencrypted volume. -/
def c4CloudSpot : Cloud :=
  ⟨[⟨"vol-s", false, none, "in-use", [⟨"i-s", "/dev/sdf"⟩], none, 8, "eu-west-1a", false⟩],
   [⟨"i-s", none, some "spot", "running", StopBehavior.ok, "eu-west-1a"⟩],
   [], [], [], 0⟩

/-- Fixture for the second C4 witness: an instance reported by the
autoscaling API as part of a group. -/
def c4CloudAsg : Cloud :=
  ⟨[⟨"vol-a", false, none, "in-use", [⟨"i-a", "/dev/sdf"⟩], none, 8, "eu-west-1a", false⟩],
   [⟨"i-a", none, none, "running", StopBehavior.ok, "eu-west-1a"⟩],
   [], [], [("i-a", AsgAnswer.member)], 0⟩

/-- Fixture for the third C4 witness: a spot instance not in any
auto-scaling group. -/
def c4CloudSpot2 : Cloud :=
  ⟨[⟨"vol-p", false, none, "in-use", [⟨"i-sp", "/dev/sdf"⟩], none, 8, "eu-west-1a", false⟩],
   [⟨"i-sp", none, some "spot", "running", StopBehavior.ok, "eu-west-1a"⟩],
   [], [], [], 0⟩

/-- Witness for C4 at concrete inputs. -/
theorem c4_witness :
    EncryptEbs.process_volume c4CloudSpot "kms" ("vol-s", some "i-s", none, none) =
      (c4CloudSpot, [], Except.ok false) ∧
    EncryptInstances.encrypt_volumes c4CloudAsg "i-a" "kms" =
      (c4CloudAsg, [], EncryptInstances.EVResult.skippedAsg) ∧
    EncryptInstances.encrypt_volumes c4CloudSpot2 "i-sp" "kms" =
      (c4CloudSpot2, [], EncryptInstances.EVResult.skippedSpot) :=
  ⟨c4_skipped_job_issues_no_mutating_calls.1 c4CloudSpot "kms"
     ("vol-s", some "i-s", none, none) "i-s" rfl (by decide),
   c4_skipped_job_issues_no_mutating_calls.2.1 c4CloudAsg "i-a" "kms" (by decide),
   c4_skipped_job_issues_no_mutating_calls.2.2 c4CloudSpot2 "i-sp" "kms"
     ⟨"i-sp", none, some "spot", "running", StopBehavior.ok, "eu-west-1a"⟩
     (by decide) (by decide) rfl⟩

/-- C5: in the volume-based engine, when ec2.stop_instances fails with
an UnsupportedOperation ClientError for an otherwise eligible instance,
stop_instance absorbs the error and returns False, so the job ends
SKIPPED: its trace holds only the failed stop attempt, no later pipeline
stage runs, the cloud is unchanged, no error propagates, and the
candidate loop goes on to process the remaining queue from the same
state. -/
theorem c5_unsupported_stop_skips_job_and_continues :
    ∀ (c : Cloud) (kms_key_id : String) (cand : EncryptEbs.Candidate) (iid : String)
      (inst : Ec2Instance) (rest : List EncryptEbs.Candidate),
      cand.2.1 = some iid →
      EncryptEbs.is_instance_managed_by_asg_or_spot c iid = Except.ok false →
      c.findInstance iid = some inst →
      inst.stopBehavior = StopBehavior.unsupportedOperation →
      EncryptEbs.process_volume c kms_key_id cand =
        (c, [CloudCall.stopInstances iid], Except.ok false) ∧
      EncryptEbs.encrypt_loop c kms_key_id (cand :: rest) =
        ((EncryptEbs.encrypt_loop c kms_key_id rest).1,
         CloudCall.stopInstances iid :: (EncryptEbs.encrypt_loop c kms_key_id rest).2.1,
         (EncryptEbs.encrypt_loop c kms_key_id rest).2.2) := by
  intro c kms_key_id cand iid inst rest h1 h2 h3 h4
  have hp : EncryptEbs.process_volume c kms_key_id cand =
      (c, [CloudCall.stopInstances iid], Except.ok false) := by
    simp only [EncryptEbs.process_volume, EncryptEbs.stop_instance, h1, h2, h3, h4]
  refine ⟨hp, ?_⟩
  show (match EncryptEbs.process_volume c kms_key_id cand with
        | (c1, tr1, Except.error e) => (c1, tr1, some e)
        | (c1, tr1, Except.ok _) =>
          match EncryptEbs.encrypt_loop c1 kms_key_id rest with
          | (c2, tr2, r) => (c2, tr1 ++ tr2, r)) = _
  rw [hp]
  rcases hl : EncryptEbs.encrypt_loop c kms_key_id rest with ⟨c2, tr2, r⟩
  simp [hl]

/-- Fixture for the C5 witness: an eligible instance whose stop call is
rejected with UnsupportedOperation, plus a second candidate behind it. -/
def c5Cloud : Cloud :=
  ⟨[⟨"vol-u", false, none, "in-use", [⟨"i-u", "/dev/sdf"⟩], none, 8, "eu-west-1a", false⟩,
    ⟨"vol-v", false, none, "in-use", [⟨"i-v", "/dev/sdf"⟩], none, 8, "eu-west-1a", false⟩],
   [⟨"i-u", none, none, "running", StopBehavior.unsupportedOperation, "eu-west-1a"⟩,
    ⟨"i-v", none, none, "running", StopBehavior.ok, "eu-west-1a"⟩],
   [], [], [], 0⟩

/-- Witness for C5 at a concrete input: the first candidate is skipped
with only the failed stop attempt in its trace, and the loop still
processes the second candidate. -/
theorem c5_witness :
    EncryptEbs.process_volume c5Cloud "kms" ("vol-u", some "i-u", none, none) =
      (c5Cloud, [CloudCall.stopInstances "i-u"], Except.ok false) ∧
    EncryptEbs.encrypt_loop c5Cloud "kms"
        [("vol-u", some "i-u", none, none), ("vol-v", some "i-v", none, none)] =
      ((EncryptEbs.encrypt_loop c5Cloud "kms" [("vol-v", some "i-v", none, none)]).1,
       CloudCall.stopInstances "i-u" ::
         (EncryptEbs.encrypt_loop c5Cloud "kms" [("vol-v", some "i-v", none, none)]).2.1,
       (EncryptEbs.encrypt_loop c5Cloud "kms" [("vol-v", some "i-v", none, none)]).2.2) :=
  c5_unsupported_stop_skips_job_and_continues c5Cloud "kms"
    ("vol-u", some "i-u", none, none) "i-u"
    ⟨"i-u", none, none, "running", StopBehavior.unsupportedOperation, "eu-west-1a"⟩
    [("vol-v", some "i-v", none, none)] rfl (by decide) (by decide) rfl

/-- C10: when the autoscaling describe_auto_scaling_instances call
raises a ClientError, is_part_of_auto_scaling_group catches it and
answers False, and encrypt_volumes therefore does not skip the instance
at either eligibility gate: the migration proceeds (to completion or to
a later per-job error), exactly as for an instance not in any group. -/
theorem c10_asg_client_error_treated_as_not_member :
    ∀ (c : Cloud) (iid kms_key_id : String) (inst : Ec2Instance),
      c.asgAnswer iid = AsgAnswer.clientError →
      EncryptInstances.is_part_of_auto_scaling_group c iid = false ∧
      (c.findInstance iid = some inst →
       inst.instanceLifecycle ≠ some "spot" →
       (EncryptInstances.encrypt_volumes c iid kms_key_id).2.2 ≠
           EncryptInstances.EVResult.skippedAsg ∧
       (EncryptInstances.encrypt_volumes c iid kms_key_id).2.2 ≠
           EncryptInstances.EVResult.skippedSpot) := by
  intro c iid kms_key_id inst h
  have hm : EncryptInstances.is_part_of_auto_scaling_group c iid = false := by
    unfold EncryptInstances.is_part_of_auto_scaling_group
    rw [h]
  refine ⟨hm, ?_⟩
  intro h2 h3
  unfold EncryptInstances.encrypt_volumes
  rw [hm, h2]
  simp only [Bool.false_eq_true, if_false, h3, if_neg]
  split
  · simp
  · split <;> simp

/-- Fixture for the C10 witness: the autoscaling query for i-e raises a
ClientError; the instance itself is an ordinary stopped instance with no
attached volume. -/
def c10Cloud : Cloud :=
  ⟨[], [⟨"i-e", none, none, "stopped", StopBehavior.ok, "eu-west-1a"⟩],
   [], [], [("i-e", AsgAnswer.clientError)], 0⟩

/-- Witness for C10 at a concrete input. -/
theorem c10_witness :
    EncryptInstances.is_part_of_auto_scaling_group c10Cloud "i-e" = false ∧
    ((EncryptInstances.encrypt_volumes c10Cloud "i-e" "kms").2.2 ≠
        EncryptInstances.EVResult.skippedAsg ∧
     (EncryptInstances.encrypt_volumes c10Cloud "i-e" "kms").2.2 ≠
        EncryptInstances.EVResult.skippedSpot) :=
  ⟨(c10_asg_client_error_treated_as_not_member c10Cloud "i-e" "kms"
      ⟨"i-e", none, none, "stopped", StopBehavior.ok, "eu-west-1a"⟩ rfl).1,
   (c10_asg_client_error_treated_as_not_member c10Cloud "i-e" "kms"
      ⟨"i-e", none, none, "stopped", StopBehavior.ok, "eu-west-1a"⟩ rfl).2
     rfl (by decide)⟩

/-- The full candidate filter of the volume-based scanner: the
server-side encrypted=false filter together with the in-loop KmsKeyId
and in-use conditions. -/
def ebsScanKeeps (v : Volume) : Bool :=
  EncryptEbs.scan_filter v && (v.encrypted == false)

/-- Fixture for the C3 counterexample: five volumes, all unencrypted,
without KMS key and in-use (unattached, so no name lookup can fail). -/
def c3Cloud : Cloud :=
  ⟨[⟨"vol-1", false, none, "in-use", [], none, 8, "eu-west-1a", false⟩,
    ⟨"vol-2", false, none, "in-use", [], none, 8, "eu-west-1a", false⟩,
    ⟨"vol-3", false, none, "in-use", [], none, 8, "eu-west-1a", false⟩,
    ⟨"vol-4", false, none, "in-use", [], none, 8, "eu-west-1a", false⟩,
    ⟨"vol-5", false, none, "in-use", [], none, 8, "eu-west-1a", false⟩],
   [], [], [], [], 0⟩

/-- C3: the claimed equivalence (a volume is in the Scanner output if
and only if it is unencrypted, without KMS key, and in-use) is FALSE:
get_unencrypted_ebs_volumes truncates its result to the first four rows,
so on c3Cloud the fifth volume satisfies the filter, sits in the
inventory, and still does not appear in the output. -/
theorem c3_counterexample :
    ebsScanKeeps ⟨"vol-5", false, none, "in-use", [], none, 8, "eu-west-1a", false⟩ = true ∧
    (⟨"vol-5", false, none, "in-use", [], none, 8, "eu-west-1a", false⟩ : Volume) ∈
      c3Cloud.volumes ∧
    (EncryptEbs.get_unencrypted_ebs_volumes c3Cloud).map
        (fun l => l.any (fun t => t.1 == "vol-5")) = Except.ok false := by
  refine ⟨rfl, by decide, rfl⟩

/-- Fixture for the C8 counterexample: five qualifying volumes. -/
def c8Cloud : Cloud :=
  ⟨[⟨"vol-1", false, none, "in-use", [], none, 8, "eu-west-1a", false⟩,
    ⟨"vol-2", false, none, "in-use", [], none, 8, "eu-west-1a", false⟩,
    ⟨"vol-3", false, none, "in-use", [], none, 8, "eu-west-1a", false⟩,
    ⟨"vol-4", false, none, "in-use", [], none, 8, "eu-west-1a", false⟩,
    ⟨"vol-5", false, none, "in-use", [], none, 8, "eu-west-1a", false⟩],
   [], [], [], [], 0⟩

/-- C8: the claim that the result cap is a caller-supplied knob and that
without a cap every passing volume appears is FALSE: the function takes
no cap parameter and always returns unencrypted_volumes[:4], so on
c8Cloud five volumes pass the filter but only four rows come back. -/
theorem c8_counterexample :
    (c8Cloud.volumes.filter ebsScanKeeps).length = 5 ∧
    (EncryptEbs.get_unencrypted_ebs_volumes c8Cloud).map List.length = Except.ok 4 := by
  exact ⟨rfl, rfl⟩

lemma ebs_scan_aux_ids (c : Cloud) :
    ∀ (vs : List Volume) (l : List EncryptEbs.Candidate),
      EncryptEbs.get_unencrypted_ebs_volumes_aux c vs = Except.ok l →
      l.map (fun t => t.1) =
        (vs.filter EncryptEbs.scan_filter).map (fun v => v.volumeId) := by
  intro vs
  induction vs with
  | nil =>
    intro l h
    simp only [EncryptEbs.get_unencrypted_ebs_volumes_aux, Except.ok.injEq] at h
    subst h
    rfl
  | cons v rest ih =>
    intro l h
    unfold EncryptEbs.get_unencrypted_ebs_volumes_aux at h
    by_cases hs : EncryptEbs.scan_filter v
    · rw [if_pos hs] at h
      rcases hn : (match Option.map (fun a => a.instanceId) v.attachments.head? with
                   | some iid => EncryptEbs.get_instance_name c iid
                   | none => Except.ok none) with e1 | iname
      · simp [hn] at h
      · rcases hv2 : EncryptEbs.get_volume_name c v.volumeId with e2 | vname
        · simp [hn, hv2] at h
        · rcases ht : EncryptEbs.get_unencrypted_ebs_volumes_aux c rest with e3 | tail
          · simp [hn, hv2, ht] at h
          · simp only [hn, hv2, ht, Except.ok.injEq] at h
            subst h
            rw [List.filter_cons_of_pos hs, List.map_cons, List.map_cons, ih tail ht]
    · rw [if_neg hs] at h
      rw [List.filter_cons_of_neg hs]
      exact ih l h

lemma ebs_scanner_ids (c : Cloud) (out : List EncryptEbs.Candidate)
    (h : EncryptEbs.get_unencrypted_ebs_volumes c = Except.ok out) :
    out.map (fun t => t.1) =
      ((c.volumes.filter ebsScanKeeps).map (fun v => v.volumeId)).take 4 := by
  unfold EncryptEbs.get_unencrypted_ebs_volumes at h
  split at h
  · simp at h
  · rename_i l hl
    rw [Except.ok.injEq] at h
    subst h
    rw [List.map_take, ebs_scan_aux_ids c _ l hl, List.filter_filter]
    rfl

/-- The row list the instance-based scanner builds for one instance:
its attached volumes with encrypted false, mapped to (id, name, size)
rows. -/
def unencryptedRows (c : Cloud) (iid : String) : List (String × String × Nat) :=
  ((EncryptInstances.instanceVolumes c iid).filter (fun v => !v.encrypted)).map
    (fun v => (v.volumeId, EncryptInstances.get_volume_name v, v.size))

lemma gather_eq_foldr (c : Cloud) :
    EncryptInstances.gather_unencrypted_info c =
      c.instances.foldr
        (fun inst acc =>
          if (unencryptedRows c inst.instanceId).isEmpty then acc
          else (inst.instanceId, EncryptInstances.get_instance_name inst,
                unencryptedRows c inst.instanceId) :: acc) [] := rfl

lemma gather_foldr_mem (c : Cloud) :
    ∀ (is_ : List Ec2Instance) (e : String × String × List (String × String × Nat)),
      e ∈ is_.foldr
          (fun inst acc =>
            if (unencryptedRows c inst.instanceId).isEmpty then acc
            else (inst.instanceId, EncryptInstances.get_instance_name inst,
                  unencryptedRows c inst.instanceId) :: acc) [] ↔
      ∃ i, i ∈ is_ ∧ (unencryptedRows c i.instanceId).isEmpty = false ∧
        e = (i.instanceId, EncryptInstances.get_instance_name i,
             unencryptedRows c i.instanceId) := by
  intro is_
  induction is_ with
  | nil => intro e; simp
  | cons i rest ih =>
    intro e
    rw [List.foldr_cons]
    by_cases hne : (unencryptedRows c i.instanceId).isEmpty = true
    · rw [if_pos hne, ih e]
      constructor
      · rintro ⟨j, hj, hne2, he⟩
        exact ⟨j, List.mem_cons_of_mem _ hj, hne2, he⟩
      · rintro ⟨j, hj, hne2, he⟩
        rcases List.mem_cons.mp hj with rfl | hj2
        · rw [hne] at hne2; cases hne2
        · exact ⟨j, hj2, hne2, he⟩
    · rw [if_neg hne]
      constructor
      · intro he
        rcases List.mem_cons.mp he with rfl | he2
        · exact ⟨i, List.mem_cons_self _ _, Bool.eq_false_iff.mpr hne, rfl⟩
        · rcases (ih e).mp he2 with ⟨j, hj, hne2, hee⟩
          exact ⟨j, List.mem_cons_of_mem _ hj, hne2, hee⟩
      · rintro ⟨j, hj, hne2, hee⟩
        rcases List.mem_cons.mp hj with rfl | hj2
        · rw [hee]
          exact List.mem_cons_self _ _
        · exact List.mem_cons_of_mem _ ((ih e).mpr ⟨j, hj2, hne2, hee⟩)

/-- C3 (amended): the claimed equivalence must be weakened differently
for each scanner.  Volume-based scanner (first conjunct): every output
row corresponds to a volume of the inventory that is unencrypted, has
no KMS key id and is in-use (so no encrypted volume ever appears), and
conversely every such volume appears provided at most four qualify —
the hard result cap drops a fifth, as the counterexample shows.
Instance-based scanner gather_unencrypted_info (second and third
conjuncts): it has no cap but filters only on the encrypted flag of
attached volumes — a volume id appears among its rows exactly when an
unencrypted volume with that id is attached to a listed instance,
regardless of KMS key id or volume state; in particular no encrypted
volume ever appears there either. -/
theorem c3_amended_scanner_filter_characterisation :
    (∀ (c : Cloud) (out : List EncryptEbs.Candidate),
       EncryptEbs.get_unencrypted_ebs_volumes c = Except.ok out →
       (∀ t ∈ out, ∃ v, v ∈ c.volumes ∧ v.encrypted = false ∧ v.kmsKeyId = none ∧
          v.state = "in-use" ∧ t.1 = v.volumeId) ∧
       ((c.volumes.filter ebsScanKeeps).length ≤ 4 →
         ∀ v ∈ c.volumes, ebsScanKeeps v = true →
           v.volumeId ∈ out.map (fun t => t.1))) ∧
    (∀ (c : Cloud) (e : String × String × List (String × String × Nat)),
       e ∈ EncryptInstances.gather_unencrypted_info c →
       ∀ r ∈ e.2.2, ∃ v, v ∈ c.volumes ∧ v.encrypted = false ∧ r.1 = v.volumeId ∧
         v.attachments.any (fun a => a.instanceId == e.1) = true) ∧
    (∀ (c : Cloud) (v : Volume) (i : Ec2Instance),
       v ∈ c.volumes → v.encrypted = false → i ∈ c.instances →
       v.attachments.any (fun a => a.instanceId == i.instanceId) = true →
       ∃ e, e ∈ EncryptInstances.gather_unencrypted_info c ∧ e.1 = i.instanceId ∧
         ∃ r, r ∈ e.2.2 ∧ r.1 = v.volumeId) := by
  refine ⟨?_, ?_, ?_⟩
  · intro c out h
    have hids := ebs_scanner_ids c out h
    constructor
    · intro t ht
      have h1 : t.1 ∈ out.map (fun t => t.1) := List.mem_map_of_mem _ ht
      rw [hids] at h1
      have h2 : t.1 ∈ (c.volumes.filter ebsScanKeeps).map (fun v => v.volumeId) :=
        List.take_subset _ _ h1
      rcases List.mem_map.mp h2 with ⟨v, hv, hid⟩
      rcases List.mem_filter.mp hv with ⟨hvmem, hkeep⟩
      have hk := hkeep
      simp only [ebsScanKeeps, EncryptEbs.scan_filter, Bool.and_eq_true, beq_iff_eq,
        Option.isNone_iff_eq_none] at hk
      exact ⟨v, hvmem, hk.2, hk.1.1, hk.1.2, hid.symm⟩
    · intro hlen v hv hkeep
      rw [hids]
      have hlen2 : ((c.volumes.filter ebsScanKeeps).map (fun v => v.volumeId)).length ≤ 4 := by
        rw [List.length_map]
        exact hlen
      rw [List.take_of_length_le hlen2]
      exact List.mem_map_of_mem _ (List.mem_filter.mpr ⟨hv, hkeep⟩)
  · intro c e he r hr
    rw [gather_eq_foldr] at he
    rcases (gather_foldr_mem c c.instances e).mp he with ⟨i, -, -, rfl⟩
    simp only at hr
    rcases List.mem_map.mp hr with ⟨v, hv, hrv⟩
    rcases List.mem_filter.mp hv with ⟨hiv, henc⟩
    rcases List.mem_filter.mp hiv with ⟨hvmem, hany⟩
    refine ⟨v, hvmem, by simpa using henc, ?_, hany⟩
    rw [← hrv]
  · intro c v i hv henc hi hany
    have hrow : (v.volumeId, EncryptInstances.get_volume_name v, v.size) ∈
        unencryptedRows c i.instanceId := by
      apply List.mem_map_of_mem
      apply List.mem_filter.mpr
      refine ⟨List.mem_filter.mpr ⟨hv, hany⟩, by simp [henc]⟩
    have hne : (unencryptedRows c i.instanceId).isEmpty = false := by
      rcases hcase : unencryptedRows c i.instanceId with _ | ⟨x, xs⟩
      · rw [hcase] at hrow
        exact absurd hrow (List.not_mem_nil _)
      · rfl
    refine ⟨(i.instanceId, EncryptInstances.get_instance_name i,
             unencryptedRows c i.instanceId), ?_, rfl,
            (v.volumeId, EncryptInstances.get_volume_name v, v.size), hrow, rfl⟩
    rw [gather_eq_foldr]
    exact (gather_foldr_mem c c.instances _).mpr ⟨i, hi, hne, rfl⟩

/-- Fixture for the amended C3 witness: a single qualifying volume. -/
def c3SmallCloud : Cloud :=
  ⟨[⟨"vol-1", false, none, "in-use", [], none, 8, "eu-west-1a", false⟩,
    ⟨"vol-2", true, some "k", "in-use", [], none, 8, "eu-west-1a", false⟩,
    ⟨"vol-3", false, none, "available", [], none, 8, "eu-west-1a", false⟩],
   [], [], [], [], 0⟩

/-- Fixture for the instance-based part of the amended C3 witness: one
instance with one attached unencrypted volume. -/
def c3GatherCloud : Cloud :=
  ⟨[⟨"vol-g", false, none, "in-use", [⟨"i-g", "/dev/sdg"⟩], none, 8, "eu-west-1a", false⟩],
   [⟨"i-g", none, none, "running", StopBehavior.ok, "eu-west-1a"⟩],
   [], [], [], 0⟩

/-- Witness for the amended C3 at concrete inputs, covering both
scanners. -/
theorem c3_amended_witness :
    ((∀ t ∈ [(("vol-1" : String), (none : Option String), (none : Option String),
              (some "Name Unknown" : Option String))],
        ∃ v, v ∈ c3SmallCloud.volumes ∧ v.encrypted = false ∧ v.kmsKeyId = none ∧
          v.state = "in-use" ∧ t.1 = v.volumeId) ∧
     ((c3SmallCloud.volumes.filter ebsScanKeeps).length ≤ 4 →
       ∀ v ∈ c3SmallCloud.volumes, ebsScanKeeps v = true →
         v.volumeId ∈ [(("vol-1" : String), (none : Option String), (none : Option String),
                        (some "Name Unknown" : Option String))].map (fun t => t.1))) ∧
    (∀ r ∈ ((("i-g" : String), ("Name Unknown" : String),
             [(("vol-g" : String), ("Unknown Name" : String), (8 : Nat))])).2.2,
       ∃ v, v ∈ c3GatherCloud.volumes ∧ v.encrypted = false ∧ r.1 = v.volumeId ∧
         v.attachments.any (fun a => a.instanceId ==
           ((("i-g" : String), ("Name Unknown" : String),
             [(("vol-g" : String), ("Unknown Name" : String), (8 : Nat))])).1) = true) ∧
    (∃ e, e ∈ EncryptInstances.gather_unencrypted_info c3GatherCloud ∧
       e.1 = "i-g" ∧ ∃ r, r ∈ e.2.2 ∧ r.1 = "vol-g") :=
  ⟨c3_amended_scanner_filter_characterisation.1 c3SmallCloud
     [("vol-1", none, none, some "Name Unknown")] (by rfl),
   c3_amended_scanner_filter_characterisation.2.1 c3GatherCloud
     ("i-g", "Name Unknown", [("vol-g", "Unknown Name", 8)]) (by decide),
   c3_amended_scanner_filter_characterisation.2.2 c3GatherCloud
     ⟨"vol-g", false, none, "in-use", [⟨"i-g", "/dev/sdg"⟩], none, 8, "eu-west-1a", false⟩
     ⟨"i-g", none, none, "running", StopBehavior.ok, "eu-west-1a"⟩
     (by decide) rfl (by decide) (by decide)⟩

/-- C8 (amended): the cap of the volume-based Scanner is the hard
constant 4, not a configurable caller-supplied limit: whatever the
inventory, the function (which takes no cap parameter) returns exactly
min 4 n rows, where n is the number of volumes passing the
unencrypted / no-KMS / in-use filter. -/
theorem c8_amended_result_cap_is_hard_constant_four :
    ∀ (c : Cloud) (out : List EncryptEbs.Candidate),
      EncryptEbs.get_unencrypted_ebs_volumes c = Except.ok out →
      out.length = min 4 (c.volumes.filter ebsScanKeeps).length := by
  intro c out h
  have hids := ebs_scanner_ids c out h
  have hlen : (out.map (fun t => t.1)).length =
      (((c.volumes.filter ebsScanKeeps).map (fun v => v.volumeId)).take 4).length := by
    rw [hids]
  rw [List.length_map, List.length_take, List.length_map] at hlen
  exact hlen

/-- Witness for the amended C8 at a concrete input: on the five-volume
inventory the output length is min 4 5. -/
theorem c8_amended_witness :
    (EncryptEbs.get_unencrypted_ebs_volumes c8Cloud).map List.length =
      Except.ok (min 4 (c8Cloud.volumes.filter ebsScanKeeps).length) := by
  have h := c8_amended_result_cap_is_hard_constant_four c8Cloud
    [("vol-1", none, none, some "Name Unknown"),
     ("vol-2", none, none, some "Name Unknown"),
     ("vol-3", none, none, some "Name Unknown"),
     ("vol-4", none, none, some "Name Unknown")] (by rfl)
  rw [show EncryptEbs.get_unencrypted_ebs_volumes c8Cloud =
      Except.ok [(("vol-1" : String), (none : Option String), (none : Option String),
                  (some "Name Unknown" : Option String)),
                 ("vol-2", none, none, some "Name Unknown"),
                 ("vol-3", none, none, some "Name Unknown"),
                 ("vol-4", none, none, some "Name Unknown")] from by rfl]
  rw [← h]
  rfl

/-- Fixture for the C6 counterexample: an eligible instance that is
already stopped. -/
def c6Cloud : Cloud :=
  ⟨[⟨"vol-1", false, none, "in-use", [⟨"i-1", "/dev/sdf"⟩], none, 8, "eu-west-1a", false⟩],
   [⟨"i-1", none, none, "stopped", StopBehavior.ok, "eu-west-1a"⟩],
   [], [], [], 0⟩

/-- C6: the claim that the stop stage never re-issues a stop request for
an already-stopped instance is FALSE for the volume-based engine:
stop_instance in encrypt_ebs_volumes.py never reads the instance state
and issues ec2.stop_instances unconditionally; on c6Cloud the instance
is already "stopped" and the trace still records a stop request. -/
theorem c6_counterexample :
    ((c6Cloud.findInstance "i-1").map (fun i => i.state) = some "stopped") ∧
    (EncryptEbs.stop_instance c6Cloud (some "i-1")).2.1 =
      [CloudCall.stopInstances "i-1"] := by
  exact ⟨rfl, rfl⟩

/-- Fixture for the C7 counterexample: the instance carries tags but no
Name tag; the volume has no tags at all. -/
def c7Cloud : Cloud :=
  ⟨[⟨"vol-1", false, none, "in-use", [⟨"i-1", "/dev/sdf"⟩], none, 8, "eu-west-1a", false⟩],
   [⟨"i-1", some [⟨"env", "prod"⟩], none, "running", StopBehavior.ok, "eu-west-1a"⟩],
   [], [], [], 0⟩

/-- C7: the claim that resolved names are never null is FALSE for the
volume-based scanner: get_instance_name in encrypt_ebs_volumes.py
returns None when the instance has tags but none named Name, and the
row produced for vol-1 carries that null; moreover the volume-name
sentinel of this script is "Name Unknown", not the claimed
"Unknown Name". -/
theorem c7_counterexample :
    EncryptEbs.get_instance_name c7Cloud "i-1" = Except.ok none ∧
    EncryptEbs.get_unencrypted_ebs_volumes c7Cloud =
      Except.ok [("vol-1", some "i-1", none, some "Name Unknown")] := by
  exact ⟨rfl, rfl⟩

/-- Fixture for the C9 counterexample: one candidate volume on an
ordinary instance, so that main would run the full pipeline. -/
def c9Cloud : Cloud :=
  ⟨[⟨"vol-1", false, none, "in-use", [⟨"i-1", "/dev/sdf"⟩], none, 8, "eu-west-1a", false⟩],
   [⟨"i-1", none, none, "running", StopBehavior.ok, "eu-west-1a"⟩],
   [], [], [], 0⟩

/-- C9: the claim that no mutating call is ever issued before an
explicit operator confirmation is FALSE for the volume-based script:
its main takes no operator input at all (the model has no confirmation
parameter because the script never prompts) and immediately runs
encrypt_ebs_volumes, issuing mutating calls — on c9Cloud the very first
recorded call is the stop request for i-1.  Only the instance-based
script has a confirmation gate. -/
theorem c9_counterexample :
    CloudCall.stopInstances "i-1" ∈ (EncryptEbs.main c9Cloud).2.1 ∧
    (EncryptEbs.main c9Cloud).2.1 ≠ [] := by
  exact ⟨by decide, by decide⟩

/-- C9 (amended): in the instance-based script the property holds: main
prompts before doing anything else, and unless the lowered answer is
"yes" or "y" it returns with the cloud unchanged, an empty call trace
and no job processed.  The volume-based script has no confirmation gate
at all, as the counterexample shows. -/
theorem c9_amended_refusal_changes_nothing :
    ∀ (c : Cloud) (user_input kms_key_id : String),
      EncryptInstances.lower_str user_input ≠ "yes" →
      EncryptInstances.lower_str user_input ≠ "y" →
      EncryptInstances.main c user_input kms_key_id = (c, [], []) := by
  intro c user_input kms_key_id h1 h2
  simp [EncryptInstances.main, h1, h2]

/-- Witness for the amended C9 at a concrete input: answering "No"
leaves everything untouched. -/
theorem c9_amended_witness :
    EncryptInstances.main c9Cloud "No" "kms" = (c9Cloud, [], []) :=
  c9_amended_refusal_changes_nothing c9Cloud "No" "kms" (by decide) (by decide)

lemma encrypt_one_volume_no_stop (c : Cloud) (iid az kms_key_id : String) (v : Volume) :
    ((EncryptInstances.encrypt_one_volume c iid az kms_key_id v).2.1).all
      (fun x => !x.isStop) = true := by
  unfold EncryptInstances.encrypt_one_volume
  split
  · rfl
  · split
    · rfl
    · split
      · rfl
      · by_cases ht : (v.tags.getD []).isEmpty <;>
          simp [ht, List.all_append, CloudCall.isStop]

lemma volumes_loop_no_stop (iid az kms_key_id : String) :
    ∀ (vs : List Volume) (c : Cloud),
      ((EncryptInstances.volumes_loop c iid az kms_key_id vs).2.1).all
        (fun x => !x.isStop) = true := by
  intro vs
  induction vs with
  | nil => intro c; rfl
  | cons v rest ih =>
    intro c
    rcases h1 : EncryptInstances.encrypt_one_volume c iid az kms_key_id v with ⟨c1, tr1, e⟩
    have hv := encrypt_one_volume_no_stop c iid az kms_key_id v
    rw [h1] at hv
    have hv2 : (tr1.all fun x => !x.isStop) = true := hv
    unfold EncryptInstances.volumes_loop
    rw [h1]
    cases e with
    | some e0 => simpa using hv2
    | none =>
      rcases h2 : EncryptInstances.volumes_loop c1 iid az kms_key_id rest with ⟨c2, tr2, r⟩
      have hr := ih c1
      rw [h2] at hr
      have hr2 : (tr2.all fun x => !x.isStop) = true := hr
      dsimp only
      rw [h2]
      simp [List.all_append, hv2, hr2]

/-- C6 (amended): the instance-based engine is the one with the
idempotent stop stage: when the instance is already in state "stopped"
(and passes the eligibility gates), encrypt_volumes proceeds through
the whole pipeline without ever issuing a stop request — its entire
call trace is free of stop_instances calls.  The volume-based engine
re-issues the stop unconditionally, as the counterexample shows. -/
theorem c6_amended_instances_engine_skips_stop_when_stopped :
    ∀ (c : Cloud) (iid kms_key_id : String) (inst : Ec2Instance),
      EncryptInstances.is_part_of_auto_scaling_group c iid = false →
      c.findInstance iid = some inst →
      inst.instanceLifecycle ≠ some "spot" →
      inst.state = "stopped" →
      ((EncryptInstances.encrypt_volumes c iid kms_key_id).2.1).all
        (fun x => !x.isStop) = true := by
  intro c iid kms_key_id inst h1 h2 h3 h4
  rcases h5 : EncryptInstances.volumes_loop c iid inst.availabilityZone kms_key_id
      (EncryptInstances.instanceVolumes c iid) with ⟨c2, tr2, r⟩
  have hl := volumes_loop_no_stop iid inst.availabilityZone kms_key_id
    (EncryptInstances.instanceVolumes c iid) c
  rw [h5] at hl
  have hl2 : (tr2.all fun x => !x.isStop) = true := hl
  unfold EncryptInstances.encrypt_volumes
  rw [h1, h2]
  simp only [Bool.false_eq_true, if_false]
  rw [if_neg h3, h4]
  have hcond : ¬("stopped" ≠ "stopped") := by simp
  rw [if_neg hcond]
  dsimp only
  rw [h5]
  cases r with
  | some e0 => simpa using hl2
  | none =>
    simp [List.all_append, CloudCall.isStop]
    intro x hx
    have hx2 := hl2
    simp only [List.all_eq_true, Bool.not_eq_true'] at hx2
    exact hx2 x hx

/-- Fixture for the C6 amended witness: an already-stopped eligible
instance with one unencrypted attached volume, so the pipeline really
runs. -/
def c6StoppedCloud : Cloud :=
  ⟨[⟨"vol-1", false, none, "in-use", [⟨"i-1", "/dev/sdf"⟩], none, 8, "eu-west-1a", false⟩],
   [⟨"i-1", none, none, "stopped", StopBehavior.ok, "eu-west-1a"⟩],
   [], [], [], 0⟩

/-- Witness for the amended C6 at a concrete input. -/
theorem c6_amended_witness :
    ((EncryptInstances.encrypt_volumes c6StoppedCloud "i-1" "kms").2.1).all
      (fun x => !x.isStop) = true :=
  c6_amended_instances_engine_skips_stop_when_stopped c6StoppedCloud "i-1" "kms"
    ⟨"i-1", none, none, "stopped", StopBehavior.ok, "eu-west-1a"⟩
    (by decide) rfl (by decide) rfl

/-- C7 (amended): name resolution never produces null only in the
instance-based script, whose get_instance_name and get_volume_name
always return a string — the Name tag value when present, otherwise the
sentinels "Name Unknown" (instance) and "Unknown Name" (volume).  In
the volume-based script both resolvers return the sentinel
"Name Unknown" only when the resource has no Tags key at all, and
return null when tags exist but none is named Name (shown by the
counterexample). -/
theorem c7_amended_name_sentinels :
    (∀ (c : Cloud) (iid : String) (inst : Ec2Instance),
       c.findInstance iid = some inst → inst.tags = none →
       EncryptEbs.get_instance_name c iid = Except.ok (some "Name Unknown")) ∧
    (∀ (c : Cloud) (iid : String) (inst : Ec2Instance) (ts : List Tag),
       c.findInstance iid = some inst → inst.tags = some ts →
       (∀ t ∈ ts, t.key ≠ "Name") →
       EncryptEbs.get_instance_name c iid = Except.ok none) ∧
    (∀ (c : Cloud) (vid : String) (v : Volume),
       c.findVolume vid = some v → v.tags = none →
       EncryptEbs.get_volume_name c vid = Except.ok (some "Name Unknown")) ∧
    (∀ (c : Cloud) (vid : String) (v : Volume) (ts : List Tag),
       c.findVolume vid = some v → v.tags = some ts →
       (∀ t ∈ ts, t.key ≠ "Name") →
       EncryptEbs.get_volume_name c vid = Except.ok none) ∧
    (∀ inst : Ec2Instance,
       (∃ t ∈ inst.tags.getD [], t.key = "Name" ∧
          EncryptInstances.get_instance_name inst = t.value) ∨
       EncryptInstances.get_instance_name inst = "Name Unknown") ∧
    (∀ v : Volume,
       (∃ t ∈ v.tags.getD [], t.key = "Name" ∧
          EncryptInstances.get_volume_name v = t.value) ∨
       EncryptInstances.get_volume_name v = "Unknown Name") := by
  refine ⟨?_, ?_, ?_, ?_, ?_, ?_⟩
  · intro c iid inst h1 h2
    unfold EncryptEbs.get_instance_name
    rw [h1]
    dsimp only
    rw [h2]
  · intro c iid inst ts h1 h2 h3
    unfold EncryptEbs.get_instance_name
    rw [h1]
    dsimp only
    rw [h2]
    have hf : ts.find? (fun t => t.key == "Name") = none := by
      rw [List.find?_eq_none]
      intro t ht
      simpa using h3 t ht
    dsimp only
    rw [hf]
  · intro c vid v h1 h2
    unfold EncryptEbs.get_volume_name
    rw [h1]
    dsimp only
    rw [h2]
  · intro c vid v ts h1 h2 h3
    unfold EncryptEbs.get_volume_name
    rw [h1]
    dsimp only
    rw [h2]
    have hf : ts.find? (fun t => t.key == "Name") = none := by
      rw [List.find?_eq_none]
      intro t ht
      simpa using h3 t ht
    dsimp only
    rw [hf]
  · intro inst
    unfold EncryptInstances.get_instance_name
    rcases hf : (inst.tags.getD []).find? (fun t => t.key == "Name") with _ | t
    · right; rw [hf]
    · left
      refine ⟨t, List.mem_of_find?_eq_some hf, ?_, ?_⟩
      · have := List.find?_some hf
        simpa using this
      · rw [hf]
  · intro v
    unfold EncryptInstances.get_volume_name
    rcases hf : (v.tags.getD []).find? (fun t => t.key == "Name") with _ | t
    · right; rw [hf]
    · left
      refine ⟨t, List.mem_of_find?_eq_some hf, ?_, ?_⟩
      · have := List.find?_some hf
        simpa using this
      · rw [hf]

/-- Fixture for the C7 amended witness: a volume carrying tags but no
Name tag, so the volume-based resolver returns null for it. -/
def c7TagCloud : Cloud :=
  ⟨[⟨"vol-t", false, none, "in-use", [], some [⟨"env", "prod"⟩], 8, "eu-west-1a", false⟩],
   [], [], [], [], 0⟩

/-- Witness for the amended C7 at concrete inputs: a tagless instance
and volume resolve to the sentinel in the volume-based script, an
instance and a volume with tags but no Name tag resolve to null there,
and the instance-based resolvers return their sentinels for tagless
resources. -/
theorem c7_amended_witness :
    EncryptEbs.get_instance_name c2Cloud "i-A" = Except.ok (some "Name Unknown") ∧
    EncryptEbs.get_instance_name c7Cloud "i-1" = Except.ok none ∧
    EncryptEbs.get_volume_name c2Cloud "vol-A" = Except.ok (some "Name Unknown") ∧
    EncryptEbs.get_volume_name c7TagCloud "vol-t" = Except.ok none ∧
    ((∃ t ∈ (⟨"i-x", none, none, "running", StopBehavior.ok, "a"⟩ : Ec2Instance).tags.getD [],
        t.key = "Name" ∧
        EncryptInstances.get_instance_name
          ⟨"i-x", none, none, "running", StopBehavior.ok, "a"⟩ = t.value) ∨
     EncryptInstances.get_instance_name
       ⟨"i-x", none, none, "running", StopBehavior.ok, "a"⟩ = "Name Unknown") ∧
    ((∃ t ∈ (⟨"vol-x", false, none, "in-use", [], none, 8, "a", false⟩ : Volume).tags.getD [],
        t.key = "Name" ∧
        EncryptInstances.get_volume_name
          ⟨"vol-x", false, none, "in-use", [], none, 8, "a", false⟩ = t.value) ∨
     EncryptInstances.get_volume_name
       ⟨"vol-x", false, none, "in-use", [], none, 8, "a", false⟩ = "Unknown Name") :=
  ⟨c7_amended_name_sentinels.1 c2Cloud "i-A"
     ⟨"i-A", none, none, "running", StopBehavior.otherClientError, "eu-west-1a"⟩ rfl rfl,
   c7_amended_name_sentinels.2.1 c7Cloud "i-1"
     ⟨"i-1", some [⟨"env", "prod"⟩], none, "running", StopBehavior.ok, "eu-west-1a"⟩
     [⟨"env", "prod"⟩] rfl rfl (by decide),
   c7_amended_name_sentinels.2.2.1 c2Cloud "vol-A"
     ⟨"vol-A", false, none, "in-use", [⟨"i-A", "/dev/sda"⟩], none, 8, "eu-west-1a", false⟩
     rfl rfl,
   c7_amended_name_sentinels.2.2.2.1 c7TagCloud "vol-t"
     ⟨"vol-t", false, none, "in-use", [], some [⟨"env", "prod"⟩], 8, "eu-west-1a", false⟩
     [⟨"env", "prod"⟩] rfl rfl (by decide),
   c7_amended_name_sentinels.2.2.2.2.1 ⟨"i-x", none, none, "running", StopBehavior.ok, "a"⟩,
   c7_amended_name_sentinels.2.2.2.2.2
     ⟨"vol-x", false, none, "in-use", [], none, 8, "a", false⟩⟩

@[simp] lemma setInstanceState_volumes (c : Cloud) (iid st : String) :
    (c.setInstanceState iid st).volumes = c.volumes := rfl

@[simp] lemma setInstanceState_snapshots (c : Cloud) (iid st : String) :
    (c.setInstanceState iid st).snapshots = c.snapshots := rfl

@[simp] lemma setInstanceState_fsr (c : Cloud) (iid st : String) :
    (c.setInstanceState iid st).fsr = c.fsr := rfl

@[simp] lemma setInstanceState_nextId (c : Cloud) (iid st : String) :
    (c.setInstanceState iid st).nextId = c.nextId := rfl

@[simp] lemma updateVolume_snapshots (c : Cloud) (vid : String) (f : Volume → Volume) :
    (c.updateVolume vid f).snapshots = c.snapshots := rfl

@[simp] lemma updateVolume_fsr (c : Cloud) (vid : String) (f : Volume → Volume) :
    (c.updateVolume vid f).fsr = c.fsr := rfl

@[simp] lemma updateVolume_nextId (c : Cloud) (vid : String) (f : Volume → Volume) :
    (c.updateVolume vid f).nextId = c.nextId := rfl

@[simp] lemma updateVolume_volumes (c : Cloud) (vid : String) (f : Volume → Volume) :
    (c.updateVolume vid f).volumes =
      c.volumes.map (fun v => if v.volumeId = vid then f v else v) := rfl

lemma findVolume_congr (c c' : Cloud) (vid : String) (h : c.volumes = c'.volumes) :
    c.findVolume vid = c'.findVolume vid := by
  unfold Cloud.findVolume
  rw [h]

lemma stop_instance_ok_true (c : Cloud) (io : Option String) (c1 : Cloud)
    (tr1 : List CloudCall)
    (h : EncryptEbs.stop_instance c io = (c1, tr1, Except.ok true)) :
    ∃ iid, io = some iid ∧ c1.volumes = c.volumes ∧ c1.snapshots = c.snapshots ∧
      c1.fsr = c.fsr ∧ c1.nextId = c.nextId := by
  cases io with
  | none => simp [EncryptEbs.stop_instance] at h
  | some iid =>
    refine ⟨iid, rfl, ?_⟩
    unfold EncryptEbs.stop_instance at h
    dsimp only at h
    rcases hm : EncryptEbs.is_instance_managed_by_asg_or_spot c iid with e | b
    · rw [hm] at h
      cases e with
      | clientError code =>
        simp only at h
        split at h <;> simp at h
      | waiterError => simp at h
      | paramValidationError => simp at h
    · rw [hm] at h
      cases b with
      | true => simp at h
      | false =>
        simp only at h
        rcases hf : c.findInstance iid with _ | inst
        · rw [hf] at h; simp at h
        · rw [hf] at h
          dsimp only at h
          rcases hb : inst.stopBehavior <;> rw [hb] at h <;> try simp at h
          obtain ⟨hc, -⟩ := h
          rw [← hc]
          exact ⟨rfl, rfl, rfl, rfl⟩

lemma create_snapshot_ok (c : Cloud) (vid : String) (c2 : Cloud) (tr2 : List CloudCall)
    (sid : String)
    (h : EncryptEbs.create_snapshot c vid = (c2, tr2, Except.ok sid)) :
    sid = "snap-" ++ toString c.nextId ∧ c2.volumes = c.volumes ∧ c2.fsr = c.fsr ∧
      c2.nextId = c.nextId + 1 ∧ ∃ s0, c2.snapshots = s0 :: c.snapshots := by
  unfold EncryptEbs.create_snapshot at h
  rcases hf : c.findVolume vid with _ | v
  · rw [hf] at h; simp at h
  · rw [hf] at h
    simp only at h
    split at h
    · simp at h
    · rw [Prod.mk.injEq] at h
      obtain ⟨hc, h2⟩ := h
      rw [Prod.mk.injEq] at h2
      obtain ⟨-, h3⟩ := h2
      rw [Except.ok.injEq] at h3
      rw [← hc, ← h3]
      exact ⟨rfl, rfl, rfl, rfl, ⟨_, rfl⟩⟩

lemma copy_snapshot_fields (c : Cloud) (vid sid z : String) (c3 : Cloud)
    (tr3 : List CloudCall) (esid : String)
    (h : EncryptEbs.copy_snapshot_with_encryption c vid sid true [z] = (c3, tr3, esid)) :
    esid = "snap-" ++ toString c.nextId ∧ c3.volumes = c.volumes ∧
      c3.nextId = c.nextId + 1 ∧ (∃ s1, c3.snapshots = s1 :: c.snapshots) ∧
      c3.fsr = c.fsr ++ [(esid, z)] := by
  unfold EncryptEbs.copy_snapshot_with_encryption at h
  rw [if_pos (by simp)] at h
  rw [Prod.mk.injEq] at h
  obtain ⟨hc, h2⟩ := h
  rw [Prod.mk.injEq] at h2
  obtain ⟨-, h3⟩ := h2
  rw [← hc, ← h3]
  exact ⟨rfl, rfl, rfl, ⟨_, rfl⟩, rfl⟩

lemma delete_snapshot_fields (c : Cloud) (sid : String) (c4 : Cloud)
    (tr4 : List CloudCall)
    (h : EncryptEbs.delete_snapshot c sid = (c4, tr4)) :
    c4.volumes = c.volumes ∧ c4.fsr = c.fsr ∧ c4.nextId = c.nextId ∧
      c4.snapshots = c.snapshots.filter (fun s => !(s.snapshotId == sid)) := by
  unfold EncryptEbs.delete_snapshot at h
  rw [Prod.mk.injEq] at h
  obtain ⟨hc, -⟩ := h
  rw [← hc]
  exact ⟨rfl, rfl, rfl, rfl⟩

lemma detach_volume_ok (c : Cloud) (vid : String) (c5 : Cloud) (tr5 : List CloudCall)
    (u : Unit)
    (h : EncryptEbs.detach_volume c vid = (c5, tr5, Except.ok u)) :
    (∃ v, c.findVolume vid = some v ∧ v.attachments ≠ []) ∧
      c5.snapshots = c.snapshots ∧ c5.fsr = c.fsr ∧ c5.nextId = c.nextId := by
  unfold EncryptEbs.detach_volume at h
  rcases hf : c.findVolume vid with _ | v
  · rw [hf] at h; simp at h
  · rw [hf] at h
    dsimp only at h
    split at h
    · simp at h
    · rw [Prod.mk.injEq] at h
      obtain ⟨hc, -⟩ := h
      rw [← hc]
      refine ⟨⟨v, rfl, ?_⟩, rfl, rfl, rfl⟩
      rename_i hne
      simpa [List.isEmpty_iff] using hne

lemma create_encrypted_volume_fields (c : Cloud) (esid az kms : String) (c6 : Cloud)
    (tr6 : List CloudCall) (evid : String)
    (h : EncryptEbs.create_encrypted_volume c esid az kms = (c6, tr6, evid)) :
    evid = "vol-" ++ toString c.nextId ∧ c6.snapshots = c.snapshots ∧
      c6.fsr = c.fsr ∧
      ∃ sz, c6.volumes =
        (⟨evid, true, some kms, "available", [], none, sz, az, false⟩ : Volume)
          :: c.volumes := by
  unfold EncryptEbs.create_encrypted_volume at h
  rw [Prod.mk.injEq] at h
  obtain ⟨hc, h2⟩ := h
  rw [Prod.mk.injEq] at h2
  obtain ⟨-, h3⟩ := h2
  rw [← hc, ← h3]
  exact ⟨rfl, rfl, rfl, ⟨_, rfl⟩⟩

lemma copy_tags_ok (c : Cloud) (src tgt : String) (c7 : Cloud) (tr7 : List CloudCall)
    (u : Unit)
    (h : EncryptEbs.copy_tags c src tgt = (c7, tr7, Except.ok u)) :
    c7.snapshots = c.snapshots ∧ c7.fsr = c.fsr ∧ c7.nextId = c.nextId ∧
    ∃ g : Volume → Volume,
      (∀ w, (g w).volumeId = w.volumeId ∧ (g w).encrypted = w.encrypted ∧
            (g w).attachments = w.attachments ∧ (g w).state = w.state) ∧
      c7.volumes = c.volumes.map (fun w => if w.volumeId = tgt then g w else w) := by
  unfold EncryptEbs.copy_tags at h
  rcases hf : c.findVolume src with _ | v
  · rw [hf] at h; simp at h
  · rw [hf] at h
    dsimp only at h
    rcases htags : v.tags with _ | ts
    · rw [htags] at h
      dsimp only at h
      rw [Prod.mk.injEq] at h
      obtain ⟨hc, -⟩ := h
      rw [← hc]
      refine ⟨rfl, rfl, rfl, id, fun w => ⟨rfl, rfl, rfl, rfl⟩, ?_⟩
      simp
    · rw [htags] at h
      dsimp only at h
      rw [Prod.mk.injEq] at h
      obtain ⟨hc, -⟩ := h
      rw [← hc]
      exact ⟨rfl, rfl, rfl,
        fun w => { w with tags := some ts },
        fun w => ⟨rfl, rfl, rfl, rfl⟩, rfl⟩

lemma attach_volume_fields (c : Cloud) (vid iid dev : String) (c8 : Cloud)
    (tr8 : List CloudCall)
    (h : EncryptEbs.attach_volume c vid iid dev = (c8, tr8)) :
    c8.snapshots = c.snapshots ∧ c8.fsr = c.fsr ∧
      c8.volumes = c.volumes.map
        (fun w => if w.volumeId = vid then
          { w with attachments := [⟨iid, dev⟩], state := "in-use" } else w) := by
  unfold EncryptEbs.attach_volume at h
  rw [Prod.mk.injEq] at h
  obtain ⟨hc, -⟩ := h
  rw [← hc]
  exact ⟨rfl, rfl, rfl⟩

lemma disable_fsr_fields (c : Cloud) (sid z : String) (c9 : Cloud)
    (tr9 : List CloudCall)
    (h : EncryptEbs.disable_fsr c sid [z] = (c9, tr9)) :
    c9.volumes = c.volumes ∧ c9.snapshots = c.snapshots ∧
      c9.fsr = c.fsr.filter (fun p => !(p.1 == sid && [z].contains p.2)) := by
  unfold EncryptEbs.disable_fsr at h
  rw [Prod.mk.injEq] at h
  obtain ⟨hc, -⟩ := h
  rw [← hc]
  exact ⟨rfl, rfl, rfl⟩

lemma start_instance_fields (c : Cloud) (iid : String) (c10 : Cloud)
    (tr10 : List CloudCall)
    (h : EncryptEbs.start_instance c (some iid) = (c10, tr10)) :
    c10.volumes = c.volumes ∧ c10.snapshots = c.snapshots ∧ c10.fsr = c.fsr := by
  unfold EncryptEbs.start_instance at h
  rw [Prod.mk.injEq] at h
  obtain ⟨hc, -⟩ := h
  rw [← hc]
  exact ⟨rfl, rfl, rfl⟩

/-- DONE-state invariants of the volume-based engine: every job that
reaches DONE (the Except.ok true outcome of the loop body) has an
attached instance id in its candidate row, a source volume whose
attachment list was non-empty, and leaves a final cloud state in which
the intermediate unencrypted snapshot (snap-(nextId)) no longer exists,
fast snapshot restore is disabled for the encrypted snapshot copy
(snap-(nextId+1)) in the source volume's availability zone, and the
freshly created volume (vol-(nextId+2)) is encrypted and attached to
the original instance at exactly the device path read from the source
volume's first attachment before the detach. -/
lemma ebs_process_volume_done_invariants
    (c : Cloud) (kms_key_id : String) (cand : EncryptEbs.Candidate)
    (cf : Cloud) (tr : List CloudCall)
    (h : EncryptEbs.process_volume c kms_key_id cand = (cf, tr, Except.ok true)) :
    ∃ (iid : String) (v : Volume) (a : Attachment) (arest : List Attachment)
      (ev : Volume),
      cand.2.1 = some iid ∧
      c.findVolume cand.1 = some v ∧
      v.attachments = a :: arest ∧
      (∀ s ∈ cf.snapshots, s.snapshotId ≠ "snap-" ++ toString c.nextId) ∧
      ("snap-" ++ toString (c.nextId + 1), v.availabilityZone) ∉ cf.fsr ∧
      cf.findVolume ("vol-" ++ toString (c.nextId + 2)) = some ev ∧
      ev.encrypted = true ∧
      ev.attachments = [⟨iid, a.device⟩] := by
  unfold EncryptEbs.process_volume at h
  dsimp only at h
  rcases h1 : EncryptEbs.stop_instance c cand.2.1 with ⟨c1, tr1, r1⟩
  rw [h1] at h
  cases r1 with
  | error e => simp at h
  | ok b =>
    cases b with
    | false => simp at h
    | true =>
      obtain ⟨iid, hio, hvol1, hsnap1, hfsr1, hnid1⟩ :=
        stop_instance_ok_true c cand.2.1 c1 tr1 h1
      dsimp only at h
      rcases h2 : EncryptEbs.create_snapshot c1 cand.1 with ⟨c2, tr2, r2⟩
      rw [h2] at h
      cases r2 with
      | error e => simp at h
      | ok sid =>
        obtain ⟨hsid, hvol2, hfsr2, hnid2, s0, hsnap2⟩ :=
          create_snapshot_ok c1 cand.1 c2 tr2 sid h2
        dsimp only at h
        rcases hfv : c2.findVolume cand.1 with _ | vinfo
        · rw [hfv] at h; simp at h
        · rw [hfv] at h
          dsimp only at h
          rcases h3 : EncryptEbs.copy_snapshot_with_encryption c2 cand.1 sid true
              [vinfo.availabilityZone] with ⟨c3, tr3, esid⟩
          rw [h3] at h
          obtain ⟨hesid, hvol3, hnid3, ⟨s1, hsnap3⟩, hfsr3⟩ :=
            copy_snapshot_fields c2 cand.1 sid vinfo.availabilityZone c3 tr3 esid h3
          dsimp only at h
          rcases h4 : EncryptEbs.delete_snapshot c3 sid with ⟨c4, tr4⟩
          rw [h4] at h
          obtain ⟨hvol4, hfsr4, hnid4, hsnap4⟩ := delete_snapshot_fields c3 sid c4 tr4 h4
          dsimp only at h
          rcases h5 : EncryptEbs.detach_volume c4 cand.1 with ⟨c5, tr5, r5⟩
          rw [h5] at h
          cases r5 with
          | error e => simp at h
          | ok u5 =>
            obtain ⟨⟨vdet, hvdet, hvdetne⟩, hsnap5, hfsr5, hnid5⟩ :=
              detach_volume_ok c4 cand.1 c5 tr5 u5 h5
            have hfv4 : c4.findVolume cand.1 = some vinfo := by
              rw [findVolume_congr c4 c2 cand.1 (by rw [hvol4, hvol3])]
              exact hfv
            rw [hfv4, Option.some.injEq] at hvdet
            subst hvdet
            rcases hatt : vinfo.attachments with _ | ⟨a, arest⟩
            · exact absurd hatt hvdetne
            · dsimp only at h
              rcases h6 : EncryptEbs.create_encrypted_volume c5 esid
                  vinfo.availabilityZone kms_key_id with ⟨c6, tr6, evid⟩
              rw [h6] at h
              obtain ⟨hevid, hsnap6, hfsr6, sz, hvol6⟩ :=
                create_encrypted_volume_fields c5 esid vinfo.availabilityZone kms_key_id
                  c6 tr6 evid h6
              dsimp only at h
              rcases h7 : EncryptEbs.copy_tags c6 cand.1 evid with ⟨c7, tr7, r7⟩
              rw [h7] at h
              cases r7 with
              | error e => simp at h
              | ok u7 =>
                obtain ⟨hsnap7, hfsr7, hnid7, g, hg, hvol7⟩ :=
                  copy_tags_ok c6 cand.1 evid c7 tr7 u7 h7
                dsimp only at h
                rw [hio, hatt] at h
                simp only [List.head?_cons, Option.map_some'] at h
                rcases h8 : EncryptEbs.attach_volume c7 evid iid a.device with ⟨c8, tr8⟩
                rw [h8] at h
                obtain ⟨hsnap8, hfsr8, hvol8⟩ :=
                  attach_volume_fields c7 evid iid a.device c8 tr8 h8
                dsimp only at h
                rcases h9 : EncryptEbs.disable_fsr c8 esid [vinfo.availabilityZone]
                  with ⟨c9, tr9⟩
                rw [h9] at h
                obtain ⟨hvol9, hsnap9, hfsr9⟩ :=
                  disable_fsr_fields c8 esid vinfo.availabilityZone c9 tr9 h9
                dsimp only at h
                rcases h10 : EncryptEbs.start_instance c9 (some iid) with ⟨c10, tr10⟩
                rw [h10] at h
                obtain ⟨hvol10, hsnap10, hfsr10⟩ :=
                  start_instance_fields c9 iid c10 tr10 h10
                dsimp only at h
                rw [Prod.mk.injEq] at h
                obtain ⟨hcf, -⟩ := h
                have hfvc : c.findVolume cand.1 = some vinfo := by
                  rw [findVolume_congr c c2 cand.1 (by rw [hvol2, hvol1])]
                  exact hfv
                have hsidc : sid = "snap-" ++ toString c.nextId := by
                  rw [hsid, hnid1]
                have hesidc : esid = "snap-" ++ toString (c.nextId + 1) := by
                  rw [hesid, hnid2, hnid1]
                have hevidc : evid = "vol-" ++ toString (c.nextId + 2) := by
                  rw [hevid, hnid5, hnid4, hnid3, hnid2, hnid1]
                have hsnapcf : cf.snapshots =
                    (s1 :: s0 :: c1.snapshots).filter
                      (fun s => !(s.snapshotId == sid)) := by
                  rw [← hcf, hsnap10, hsnap9, hsnap8, hsnap7, hsnap6, hsnap5, hsnap4,
                    hsnap3, hsnap2]
                have hfsrcf : cf.fsr = c8.fsr.filter
                    (fun p => !(p.1 == esid && [vinfo.availabilityZone].contains p.2)) := by
                  rw [← hcf, hfsr10, hfsr9]
                have hvolcf : cf.volumes =
                    ((⟨evid, true, some kms_key_id, "available", [], none, sz,
                        vinfo.availabilityZone, false⟩ : Volume)
                       :: c5.volumes).map
                      (fun w =>
                        if w.volumeId = evid then
                          if (g w).volumeId = evid then
                            { g w with attachments := [⟨iid, a.device⟩], state := "in-use" }
                          else g w
                        else
                          if w.volumeId = evid then
                            { w with attachments := [⟨iid, a.device⟩], state := "in-use" }
                          else w) := by
                  rw [← hcf, hvol10, hvol9, hvol8, hvol7, hvol6, List.map_map]
                  congr 1
                  funext w
                  by_cases hw : w.volumeId = evid
                  · by_cases hgw : (g w).volumeId = evid <;>
                      simp [Function.comp, hw, hgw]
                  · simp [Function.comp, hw]
                refine ⟨iid, vinfo, a, arest,
                  { g (⟨evid, true, some kms_key_id, "available", [], none, sz,
                       vinfo.availabilityZone, false⟩ : Volume) with
                    attachments := [⟨iid, a.device⟩], state := "in-use" },
                  hio, hfvc, hatt, ?_, ?_, ?_, ?_, rfl⟩
                · intro s hs
                  rw [hsnapcf] at hs
                  have hp := List.of_mem_filter hs
                  rw [← hsidc]
                  simpa using hp
                · intro hmem
                  rw [hfsrcf] at hmem
                  have hp := List.of_mem_filter hmem
                  rw [hesidc] at hp
                  simp at hp
                · rw [← hevidc]
                  unfold Cloud.findVolume
                  rw [hvolcf, List.map_cons]
                  have hnv : ((⟨evid, true, some kms_key_id, "available", [], none, sz,
                      vinfo.availabilityZone, false⟩ : Volume)).volumeId = evid := rfl
                  rw [if_pos hnv, if_pos ((hg _).1)]
                  apply List.find?_cons_of_pos
                  have hvid : ({ g (⟨evid, true, some kms_key_id, "available", [], none,
                      sz, vinfo.availabilityZone, false⟩ : Volume) with
                      attachments := [⟨iid, a.device⟩], state := "in-use" }
                        : Volume).volumeId = evid :=
                    (hg _).1
                  rw [hvid]
                  exact beq_self_eq_true evid
                · exact (hg _).2.1

lemma findVolume_updateVolume_encrypted (c : Cloud) (vid x : String)
    (f : Volume → Volume)
    (hf : ∀ w, (f w).volumeId = w.volumeId ∧ (f w).encrypted = w.encrypted) :
    ∀ ev, c.findVolume x = some ev → ev.encrypted = true →
      ∃ ev2, (c.updateVolume vid f).findVolume x = some ev2 ∧ ev2.encrypted = true := by
  intro ev h henc
  unfold Cloud.findVolume at h ⊢
  rw [updateVolume_volumes, List.find?_map]
  have hp : ((fun v => v.volumeId == x) ∘ (fun v => if v.volumeId = vid then f v else v)) =
      (fun v => v.volumeId == x) := by
    funext w
    by_cases hw : w.volumeId = vid
    · simp [Function.comp, hw, (hf w).1]
    · simp [Function.comp, hw]
  rw [hp, h, Option.map_some']
  refine ⟨_, rfl, ?_⟩
  by_cases hw : ev.volumeId = vid
  · simpa [hw, (hf ev).2] using henc
  · simpa [hw] using henc

lemma find?_map_encrypted (l : List Volume) (x vid : String) (f : Volume → Volume)
    (hf : ∀ w, (f w).volumeId = w.volumeId ∧ (f w).encrypted = w.encrypted) :
    ∀ ev, l.find? (fun u => u.volumeId == x) = some ev → ev.encrypted = true →
      ∃ ev2, (l.map (fun w => if w.volumeId = vid then f w else w)).find?
          (fun u => u.volumeId == x) = some ev2 ∧ ev2.encrypted = true := by
  intro ev h henc
  rw [List.find?_map]
  have hp : ((fun u => u.volumeId == x) ∘ (fun w => if w.volumeId = vid then f w else w)) =
      (fun u => u.volumeId == x) := by
    funext w
    by_cases hw : w.volumeId = vid
    · simp [Function.comp, hw, (hf w).1]
    · simp [Function.comp, hw]
  rw [hp, h, Option.map_some']
  refine ⟨_, rfl, ?_⟩
  by_cases hw : ev.volumeId = vid
  · simpa [hw, (hf ev).2] using henc
  · simpa [hw] using henc

lemma find?_cons_encrypted (w : Volume) (l : List Volume) (x : String)
    (hw : w.encrypted = true) :
    ∀ ev, l.find? (fun u => u.volumeId == x) = some ev → ev.encrypted = true →
      ∃ ev2, ((w :: l).find? (fun u => u.volumeId == x)) = some ev2 ∧
        ev2.encrypted = true := by
  intro ev h henc
  by_cases hwx : (w.volumeId == x) = true
  · exact ⟨w, List.find?_cons_of_pos _ hwx, hw⟩
  · rw [@List.find?_cons_of_neg _ (fun u => u.volumeId == x) w l hwx, h]
    exact ⟨ev, rfl, henc⟩

lemma instanceVolumes_congr (c c2 : Cloud) (iid : String)
    (h : c.volumes = c2.volumes) :
    EncryptInstances.instanceVolumes c iid = EncryptInstances.instanceVolumes c2 iid := by
  unfold EncryptInstances.instanceVolumes
  rw [h]

lemma encrypt_one_volume_success_eq (c : Cloud) (iid az kms_key_id : String) (v : Volume)
    (a : Attachment) (arest : List Attachment)
    (henc : v.encrypted = false) (hfail : v.createSnapshotFails = false)
    (hatt : v.attachments = a :: arest) :
    EncryptInstances.encrypt_one_volume c iid az kms_key_id v =
      ({ c with
         snapshots :=
           ((⟨"snap-" ++ toString (c.nextId + 1), v.volumeId, true, v.size⟩ : Snapshot) ::
            (⟨"snap-" ++ toString c.nextId, v.volumeId, false, v.size⟩ : Snapshot) ::
            c.snapshots).filter
             (fun s => !(s.snapshotId == "snap-" ++ toString c.nextId)),
         fsr := (c.fsr ++ [("snap-" ++ toString (c.nextId + 1), az)]).filter
             (fun p => !(p.1 == "snap-" ++ toString (c.nextId + 1) && p.2 == az)),
         nextId := c.nextId + 3,
         volumes :=
           ((if (v.tags.getD []).isEmpty then
               ((⟨"vol-" ++ toString (c.nextId + 2), true, some kms_key_id, "available",
                  [], none, v.size, v.availabilityZone, false⟩ : Volume) ::
                c.volumes.map (fun w => if w.volumeId = v.volumeId then
                  { w with attachments := [], state := "available" } else w))
             else
               (((⟨"vol-" ++ toString (c.nextId + 2), true, some kms_key_id, "available",
                   [], none, v.size, v.availabilityZone, false⟩ : Volume) ::
                 c.volumes.map (fun w => if w.volumeId = v.volumeId then
                   { w with attachments := [], state := "available" } else w)).map
                  (fun w => if w.volumeId = "vol-" ++ toString (c.nextId + 2) then
                    { w with tags := v.tags } else w))).map
             (fun w => if w.volumeId = "vol-" ++ toString (c.nextId + 2) then
               { w with attachments := [⟨iid, a.device⟩], state := "in-use" } else w)) },
       [CloudCall.createSnapshot v.volumeId,
        CloudCall.copySnapshot ("snap-" ++ toString c.nextId),
        CloudCall.enableFastSnapshotRestores ("snap-" ++ toString (c.nextId + 1)),
        CloudCall.deleteSnapshot ("snap-" ++ toString c.nextId),
        CloudCall.detachVolume v.volumeId,
        CloudCall.createVolume ("snap-" ++ toString (c.nextId + 1)),
        CloudCall.disableFastSnapshotRestores ("snap-" ++ toString (c.nextId + 1))] ++
       (if (v.tags.getD []).isEmpty then [] else
         [CloudCall.createTags ("vol-" ++ toString (c.nextId + 2))]) ++
       [CloudCall.attachVolume ("vol-" ++ toString (c.nextId + 2)) iid a.device],
       none) := by
  unfold EncryptInstances.encrypt_one_volume
  rw [henc, hfail, hatt]
  by_cases ht : (v.tags.getD []).isEmpty = true
  · simp only [List.head?_cons, Bool.false_eq_true, if_false, ht, if_true]
    rfl
  · have ht2 : (v.tags.getD []).isEmpty = false := Bool.eq_false_iff.mpr ht
    simp only [List.head?_cons, Bool.false_eq_true, if_false, ht2]
    rfl

lemma encrypt_one_volume_step (c : Cloud) (iid az kms_key_id : String) (v : Volume)
    (c2 : Cloud) (tr : List CloudCall)
    (h : EncryptInstances.encrypt_one_volume c iid az kms_key_id v = (c2, tr, none)) :
    (∀ s ∈ c2.snapshots, s.encrypted = false → s ∈ c.snapshots) ∧
    (∀ p ∈ c2.fsr, p ∈ c.fsr) ∧
    (∀ x y d, CloudCall.attachVolume x y d ∈ tr →
       y = iid ∧ v.encrypted = false ∧
       (∃ a0 arest0, v.attachments = a0 :: arest0 ∧ d = a0.device) ∧
       ∃ ev, c2.findVolume x = some ev ∧ ev.encrypted = true) ∧
    (v.encrypted = false →
       ∃ a0 arest0 x, v.attachments = a0 :: arest0 ∧
         CloudCall.attachVolume x iid a0.device ∈ tr) ∧
    (∀ x ev, c.findVolume x = some ev → ev.encrypted = true →
      ∃ ev2, c2.findVolume x = some ev2 ∧ ev2.encrypted = true) := by
  by_cases henc : v.encrypted = true
  · unfold EncryptInstances.encrypt_one_volume at h
    rw [if_pos henc] at h
    rw [Prod.mk.injEq] at h
    obtain ⟨hc, h2⟩ := h
    rw [Prod.mk.injEq] at h2
    obtain ⟨htr, -⟩ := h2
    subst hc
    subst htr
    refine ⟨fun s hs _ => hs, fun p hp => hp, ?_, ?_, ?_⟩
    · intro x y d hmem
      simp at hmem
    · intro hfalse
      rw [henc] at hfalse
      cases hfalse
    · intro x ev hx he
      exact ⟨ev, hx, he⟩
  · have henc2 : v.encrypted = false := Bool.eq_false_iff.mpr henc
    by_cases hfail : v.createSnapshotFails = true
    · unfold EncryptInstances.encrypt_one_volume at h
      rw [if_neg henc, if_pos hfail] at h
      simp at h
    · have hfail2 : v.createSnapshotFails = false := Bool.eq_false_iff.mpr hfail
      rcases hatt : v.attachments with _ | ⟨a, arest⟩
      · unfold EncryptInstances.encrypt_one_volume at h
        rw [if_neg henc, if_neg hfail, hatt] at h
        simp at h
      · rw [encrypt_one_volume_success_eq c iid az kms_key_id v a arest henc2 hfail2 hatt]
          at h
        rw [Prod.mk.injEq] at h
        obtain ⟨hc, h2⟩ := h
        rw [Prod.mk.injEq] at h2
        obtain ⟨htr, -⟩ := h2
        subst hc
        subst htr
        refine ⟨?_, ?_, ?_, ?_, ?_⟩
        · intro s hs hse
          have hs2 : s ∈ ((⟨"snap-" ++ toString (c.nextId + 1), v.volumeId, true,
              v.size⟩ : Snapshot) ::
              (⟨"snap-" ++ toString c.nextId, v.volumeId, false, v.size⟩ : Snapshot) ::
              c.snapshots).filter
              (fun s => !(s.snapshotId == "snap-" ++ toString c.nextId)) := hs
          have hp := List.of_mem_filter hs2
          rcases List.mem_cons.mp (List.mem_of_mem_filter hs2) with rfl | h2
          · cases hse
          · rcases List.mem_cons.mp h2 with rfl | h3
            · simp at hp
            · exact h3
        · intro p hp
          have hkeep := List.of_mem_filter hp
          rcases List.mem_append.mp (List.mem_of_mem_filter hp) with hp2 | hp2
          · exact hp2
          · rcases List.mem_singleton.mp hp2 with rfl
            simp at hkeep
        · intro x y d hmem
          rcases List.mem_append.mp hmem with hX | hA
          · exfalso
            rcases List.mem_append.mp hX with hH | hT
            · simp at hH
            · by_cases ht : (v.tags.getD []).isEmpty = true
              · rw [if_pos ht] at hT
                simp at hT
              · rw [if_neg ht] at hT
                simp at hT
          · rw [List.mem_singleton, CloudCall.attachVolume.injEq] at hA
            obtain ⟨hx, hy, hd⟩ := hA
            subst hx
            refine ⟨hy, henc2, ⟨a, arest, rfl, hd⟩, ?_⟩
            by_cases ht : (v.tags.getD []).isEmpty = true
            · rw [if_pos ht]
              refine ⟨⟨"vol-" ++ toString (c.nextId + 2), true, some kms_key_id,
                "in-use", [⟨iid, a.device⟩], none, v.size, v.availabilityZone, false⟩,
                ?_, rfl⟩
              show (List.find? _ _) = _
              rw [List.map_cons, List.find?_cons_of_pos _ (by simp)]
              simp
            · rw [if_neg ht]
              refine ⟨⟨"vol-" ++ toString (c.nextId + 2), true, some kms_key_id,
                "in-use", [⟨iid, a.device⟩], v.tags, v.size, v.availabilityZone, false⟩,
                ?_, rfl⟩
              show (List.find? _ _) = _
              rw [List.map_cons, List.map_cons, List.find?_cons_of_pos _ (by simp)]
              simp
        · intro _
          refine ⟨a, arest, "vol-" ++ toString (c.nextId + 2), rfl, ?_⟩
          simp
        · intro x ev hx he
          have h0 : c.volumes.find? (fun u => u.volumeId == x) = some ev := hx
          obtain ⟨ev1, hev1, hev1e⟩ :=
            find?_map_encrypted c.volumes x v.volumeId
              (fun w => { w with attachments := [], state := "available" })
              (fun w => ⟨rfl, rfl⟩) ev h0 he
          obtain ⟨ev2a, hev2a, hev2ae⟩ :=
            find?_cons_encrypted
              (⟨"vol-" ++ toString (c.nextId + 2), true, some kms_key_id, "available",
                [], none, v.size, v.availabilityZone, false⟩ : Volume)
              (c.volumes.map (fun w => if w.volumeId = v.volumeId then
                { w with attachments := [], state := "available" } else w)) x rfl
              ev1 hev1 hev1e
          by_cases ht : (v.tags.getD []).isEmpty = true
          · rw [if_pos ht]
            exact find?_map_encrypted _ x ("vol-" ++ toString (c.nextId + 2))
              (fun w => { w with attachments := [⟨iid, a.device⟩], state := "in-use" })
              (fun w => ⟨rfl, rfl⟩) ev2a hev2a hev2ae
          · rw [if_neg ht]
            obtain ⟨ev3, hev3, hev3e⟩ :=
              find?_map_encrypted _ x ("vol-" ++ toString (c.nextId + 2))
                (fun w => { w with tags := v.tags })
                (fun w => ⟨rfl, rfl⟩) ev2a hev2a hev2ae
            exact find?_map_encrypted _ x ("vol-" ++ toString (c.nextId + 2))
              (fun w => { w with attachments := [⟨iid, a.device⟩], state := "in-use" })
              (fun w => ⟨rfl, rfl⟩) ev3 hev3 hev3e


/-- DONE-state invariants of the per-volume loop of the instance-based
engine: a loop run that raises nothing never keeps an unencrypted
snapshot it created, never keeps an FSR entry it enabled, attaches only
to the processed instance at recorded devices of unencrypted volumes
(and the attached target is encrypted in the final state), attaches
once per unencrypted attached volume, and preserves encrypted lookup
results. -/
lemma volumes_loop_done_invariants (iid az kms_key_id : String) :
    ∀ (vs : List Volume) (c c2 : Cloud) (tr : List CloudCall),
      EncryptInstances.volumes_loop c iid az kms_key_id vs = (c2, tr, none) →
      (∀ s ∈ c2.snapshots, s.encrypted = false → s ∈ c.snapshots) ∧
      (∀ p ∈ c2.fsr, p ∈ c.fsr) ∧
      (∀ x y d, CloudCall.attachVolume x y d ∈ tr →
         y = iid ∧ ∃ v, v ∈ vs ∧ v.encrypted = false ∧
           (∃ a0 arest0, v.attachments = a0 :: arest0 ∧ d = a0.device) ∧
           ∃ ev, c2.findVolume x = some ev ∧ ev.encrypted = true) ∧
      (∀ v ∈ vs, v.encrypted = false →
         ∃ a0 arest0 x, v.attachments = a0 :: arest0 ∧
           CloudCall.attachVolume x iid a0.device ∈ tr) ∧
      (∀ x ev, c.findVolume x = some ev → ev.encrypted = true →
        ∃ ev2, c2.findVolume x = some ev2 ∧ ev2.encrypted = true) := by
  intro vs
  induction vs with
  | nil =>
    intro c c2 tr h
    unfold EncryptInstances.volumes_loop at h
    rw [Prod.mk.injEq] at h
    obtain ⟨hc, h2⟩ := h
    rw [Prod.mk.injEq] at h2
    obtain ⟨htr, -⟩ := h2
    subst hc
    subst htr
    refine ⟨fun s hs _ => hs, fun p hp => hp, ?_, ?_, ?_⟩
    · intro x y d hm
      simp at hm
    · intro v hv
      simp at hv
    · intro x ev hx he
      exact ⟨ev, hx, he⟩
  | cons v rest ih =>
    intro c c2 tr h
    unfold EncryptInstances.volumes_loop at h
    rcases h1 : EncryptInstances.encrypt_one_volume c iid az kms_key_id v with ⟨c1, tr1, e⟩
    rw [h1] at h
    cases e with
    | some e0 =>
      dsimp only at h
      simp at h
    | none =>
      dsimp only at h
      rcases h2 : EncryptInstances.volumes_loop c1 iid az kms_key_id rest with ⟨c2a, tr2, r⟩
      rw [h2] at h
      dsimp only at h
      rw [Prod.mk.injEq] at h
      obtain ⟨hc, h3⟩ := h
      rw [Prod.mk.injEq] at h3
      obtain ⟨htr, hr⟩ := h3
      subst hc
      subst htr
      subst hr
      obtain ⟨S1, F1, A1, B1, P1⟩ := encrypt_one_volume_step c iid az kms_key_id v c1 tr1 h1
      obtain ⟨S2, F2, A2, B2, P2⟩ := ih c1 c2a tr2 h2
      refine ⟨?_, ?_, ?_, ?_, ?_⟩
      · intro s hs hse
        exact S1 s (S2 s hs hse) hse
      · intro p hp
        exact F1 p (F2 p hp)
      · intro x y d hm
        rcases List.mem_append.mp hm with hm1 | hm2
        · obtain ⟨hy, henc, hdev, ev, hev, heve⟩ := A1 x y d hm1
          obtain ⟨ev2, hev2, hev2e⟩ := P2 x ev hev heve
          exact ⟨hy, v, List.mem_cons_self v rest, henc, hdev, ev2, hev2, hev2e⟩
        · obtain ⟨hy, v2, hv2mem, hv2enc, hv2dev, hev⟩ := A2 x y d hm2
          exact ⟨hy, v2, List.mem_cons_of_mem v hv2mem, hv2enc, hv2dev, hev⟩
      · intro v2 hv2 henc2
        rcases List.mem_cons.mp hv2 with rfl | hmem
        · obtain ⟨a0, arest0, x, hatt, hx⟩ := B1 henc2
          exact ⟨a0, arest0, x, hatt, List.mem_append.mpr (Or.inl hx)⟩
        · obtain ⟨a0, arest0, x, hatt, hx⟩ := B2 v2 hmem henc2
          exact ⟨a0, arest0, x, hatt, List.mem_append.mpr (Or.inr hx)⟩
      · intro x ev hx he
        obtain ⟨ev1, hev1, hev1e⟩ := P1 x ev hx he
        exact P2 x ev1 hev1 hev1e

/-- The tail of an encrypt_volumes job past the eligibility and stop
stages: the loop invariants carried through the final restart, for any
pre-loop state c1 that differs from the job input c only in instance
state and any stop-stage trace tr1 free of attach calls. -/
lemma encrypt_volumes_tail_invariants (c c1 : Cloud) (iid az kms_key_id : String)
    (c2 : Cloud) (tr1 tr2 : List CloudCall)
    (hvol : c1.volumes = c.volumes) (hsnap : c1.snapshots = c.snapshots)
    (hfsr : c1.fsr = c.fsr)
    (htr1 : ∀ x y d, CloudCall.attachVolume x y d ∉ tr1)
    (hl : EncryptInstances.volumes_loop c1 iid az kms_key_id
        (EncryptInstances.instanceVolumes c1 iid) = (c2, tr2, none)) :
    (∀ s ∈ (c2.setInstanceState iid "running").snapshots, s.encrypted = false →
       s ∈ c.snapshots) ∧
    (∀ p ∈ (c2.setInstanceState iid "running").fsr, p ∈ c.fsr) ∧
    (∀ x y d, CloudCall.attachVolume x y d ∈
        tr1 ++ tr2 ++ [CloudCall.startInstances iid] →
       y = iid ∧ ∃ v, v ∈ EncryptInstances.instanceVolumes c iid ∧
         v.encrypted = false ∧
         (∃ a0 arest0, v.attachments = a0 :: arest0 ∧ d = a0.device) ∧
         ∃ ev, (c2.setInstanceState iid "running").findVolume x = some ev ∧
           ev.encrypted = true) ∧
    (∀ v ∈ EncryptInstances.instanceVolumes c iid, v.encrypted = false →
       ∃ a0 arest0 x, v.attachments = a0 :: arest0 ∧
         CloudCall.attachVolume x iid a0.device ∈
           tr1 ++ tr2 ++ [CloudCall.startInstances iid]) := by
  obtain ⟨S, F, A, B, -⟩ :=
    volumes_loop_done_invariants iid az kms_key_id
      (EncryptInstances.instanceVolumes c1 iid) c1 c2 tr2 hl
  have hiv : EncryptInstances.instanceVolumes c1 iid =
      EncryptInstances.instanceVolumes c iid := instanceVolumes_congr c1 c iid hvol
  have hfv : ∀ x, (c2.setInstanceState iid "running").findVolume x = c2.findVolume x :=
    fun x => findVolume_congr _ c2 x (setInstanceState_volumes c2 iid "running")
  refine ⟨?_, ?_, ?_, ?_⟩
  · intro s hs hse
    rw [setInstanceState_snapshots] at hs
    rw [← hsnap]
    exact S s hs hse
  · intro p hp
    rw [setInstanceState_fsr] at hp
    rw [← hfsr]
    exact F p hp
  · intro x y d hm
    rcases List.mem_append.mp hm with h12 | hS
    · rcases List.mem_append.mp h12 with hT1 | hT2
      · exact absurd hT1 (htr1 x y d)
      · obtain ⟨hy, v, hvmem, hvenc, hvdev, ev, hev, heve⟩ := A x y d hT2
        rw [hiv] at hvmem
        refine ⟨hy, v, hvmem, hvenc, hvdev, ev, ?_, heve⟩
        rw [hfv x]
        exact hev
    · rw [List.mem_singleton] at hS
      exact CloudCall.noConfusion hS
  · intro v hv henc
    rw [← hiv] at hv
    obtain ⟨a0, arest0, x, hatt, hx⟩ := B v hv henc
    exact ⟨a0, arest0, x, hatt,
      List.mem_append.mpr (Or.inl (List.mem_append.mpr (Or.inr hx)))⟩

/-- DONE-state invariants of the instance-based engine: an
encrypt_volumes job that returns the completed outcome leaves no
unencrypted snapshot the job created, leaves no FSR entry the job
enabled, attaches only to the processed instance at the device recorded
from an unencrypted attached volume (the attached target being
encrypted in the final state), and re-attaches once per unencrypted
attached volume. -/
lemma instances_encrypt_volumes_done_invariants (c : Cloud)
    (iid kms_key_id : String) (cf : Cloud) (tr : List CloudCall)
    (h : EncryptInstances.encrypt_volumes c iid kms_key_id = (cf, tr, EncryptInstances.EVResult.completed)) :
    (∀ s ∈ cf.snapshots, s.encrypted = false → s ∈ c.snapshots) ∧
    (∀ p ∈ cf.fsr, p ∈ c.fsr) ∧
    (∀ x y d, CloudCall.attachVolume x y d ∈ tr →
       y = iid ∧ ∃ v, v ∈ EncryptInstances.instanceVolumes c iid ∧
         v.encrypted = false ∧
         (∃ a0 arest0, v.attachments = a0 :: arest0 ∧ d = a0.device) ∧
         ∃ ev, cf.findVolume x = some ev ∧ ev.encrypted = true) ∧
    (∀ v ∈ EncryptInstances.instanceVolumes c iid, v.encrypted = false →
       ∃ a0 arest0 x, v.attachments = a0 :: arest0 ∧
         CloudCall.attachVolume x iid a0.device ∈ tr) := by
  unfold EncryptInstances.encrypt_volumes at h
  by_cases hasg : EncryptInstances.is_part_of_auto_scaling_group c iid = true
  · rw [if_pos hasg] at h
    simp at h
  · rw [if_neg hasg] at h
    rcases hfi : c.findInstance iid with _ | inst
    · rw [hfi] at h
      simp at h
    · rw [hfi] at h
      dsimp only at h
      by_cases hspot : inst.instanceLifecycle = some "spot"
      · rw [if_pos hspot] at h
        simp at h
      · rw [if_neg hspot] at h
        by_cases hstop : inst.state = "stopped"
        · have hcond : ¬(inst.state ≠ "stopped") := fun hn => hn hstop
          rw [if_neg hcond] at h
          dsimp only at h
          rcases hl : EncryptInstances.volumes_loop c iid inst.availabilityZone kms_key_id
              (EncryptInstances.instanceVolumes c iid) with ⟨c2, tr2, r⟩
          rw [hl] at h
          cases r with
          | some e0 =>
            dsimp only at h
            simp at h
          | none =>
            dsimp only at h
            rw [Prod.mk.injEq] at h
            obtain ⟨hcf, h3⟩ := h
            rw [Prod.mk.injEq] at h3
            obtain ⟨htr, -⟩ := h3
            subst hcf
            subst htr
            exact encrypt_volumes_tail_invariants c c iid inst.availabilityZone kms_key_id
              c2 [] tr2 rfl rfl rfl (fun x y d hm => by simp at hm) hl
        · rw [if_pos hstop] at h
          rcases hsb : inst.stopBehavior with _ | _ | _ | _
          · rw [hsb] at h
            dsimp only at h
            rcases hl : EncryptInstances.volumes_loop (c.setInstanceState iid "stopped")
                iid inst.availabilityZone kms_key_id
                (EncryptInstances.instanceVolumes (c.setInstanceState iid "stopped") iid)
              with ⟨c2, tr2, r⟩
            rw [hl] at h
            cases r with
            | some e0 =>
              dsimp only at h
              simp at h
            | none =>
              dsimp only at h
              rw [Prod.mk.injEq] at h
              obtain ⟨hcf, h3⟩ := h
              rw [Prod.mk.injEq] at h3
              obtain ⟨htr, -⟩ := h3
              subst hcf
              subst htr
              exact encrypt_volumes_tail_invariants c (c.setInstanceState iid "stopped")
                iid inst.availabilityZone kms_key_id c2 [CloudCall.stopInstances iid] tr2
                (setInstanceState_volumes c iid "stopped")
                (setInstanceState_snapshots c iid "stopped")
                (setInstanceState_fsr c iid "stopped")
                (fun x y d hm => by simp at hm) hl
          · rw [hsb] at h
            dsimp only at h
            simp at h
          · rw [hsb] at h
            dsimp only at h
            simp at h
          · rw [hsb] at h
            dsimp only at h
            simp at h

/-- C1: both engines establish the claimed DONE-state invariants.  In
the volume-based engine (encrypt_ebs_volumes.py), a process_volume job
that reports DONE (Except.ok true) had an instance id in its candidate
row and a source volume with a recorded first attachment, and leaves a
cloud in which the intermediate unencrypted snapshot is deleted, FSR
for the encrypted snapshot copy is disabled in the source volume's
availability zone, and the new encrypted volume is attached to the
original instance at the recorded device.  In the instance-based engine
(encrypt_instances_volumes.py), an encrypt_volumes job that completes
leaves no unencrypted snapshot it created and no FSR entry it enabled,
issues attach calls only for the processed instance at the device
recorded from an unencrypted attached volume — the attached volume
being encrypted in the final state — and re-attaches an encrypted
replacement for every unencrypted attached volume. -/
theorem c1_done_job_invariants :
    (∀ (c : Cloud) (kms_key_id : String) (cand : EncryptEbs.Candidate)
       (cf : Cloud) (tr : List CloudCall),
       EncryptEbs.process_volume c kms_key_id cand = (cf, tr, Except.ok true) →
       ∃ (iid : String) (v : Volume) (a : Attachment) (arest : List Attachment)
         (ev : Volume),
         cand.2.1 = some iid ∧
         c.findVolume cand.1 = some v ∧
         v.attachments = a :: arest ∧
         (∀ s ∈ cf.snapshots, s.snapshotId ≠ "snap-" ++ toString c.nextId) ∧
         ("snap-" ++ toString (c.nextId + 1), v.availabilityZone) ∉ cf.fsr ∧
         cf.findVolume ("vol-" ++ toString (c.nextId + 2)) = some ev ∧
         ev.encrypted = true ∧
         ev.attachments = [⟨iid, a.device⟩]) ∧
    (∀ (c : Cloud) (iid kms_key_id : String) (cf : Cloud) (tr : List CloudCall),
       EncryptInstances.encrypt_volumes c iid kms_key_id =
         (cf, tr, EncryptInstances.EVResult.completed) →
       (∀ s ∈ cf.snapshots, s.encrypted = false → s ∈ c.snapshots) ∧
       (∀ p ∈ cf.fsr, p ∈ c.fsr) ∧
       (∀ x y d, CloudCall.attachVolume x y d ∈ tr →
          y = iid ∧ ∃ v, v ∈ EncryptInstances.instanceVolumes c iid ∧
            v.encrypted = false ∧
            (∃ a0 arest0, v.attachments = a0 :: arest0 ∧ d = a0.device) ∧
            ∃ ev, cf.findVolume x = some ev ∧ ev.encrypted = true) ∧
       (∀ v ∈ EncryptInstances.instanceVolumes c iid, v.encrypted = false →
          ∃ a0 arest0 x, v.attachments = a0 :: arest0 ∧
            CloudCall.attachVolume x iid a0.device ∈ tr)) :=
  ⟨fun c kms_key_id cand cf tr h =>
     ebs_process_volume_done_invariants c kms_key_id cand cf tr h,
   fun c iid kms_key_id cf tr h =>
     instances_encrypt_volumes_done_invariants c iid kms_key_id cf tr h⟩

/-- Fixture for the C1 witness, volume-based engine: one unencrypted
in-use volume attached at /dev/sdf to an ordinary instance; the whole
pipeline runs to DONE. -/
def c1Cloud : Cloud :=
  ⟨[⟨"vol-1", false, none, "in-use", [⟨"i-1", "/dev/sdf"⟩], some [⟨"Name", "data"⟩], 8,
     "eu-west-1a", false⟩],
   [⟨"i-1", some [⟨"Name", "web"⟩], none, "running", StopBehavior.ok, "eu-west-1a"⟩],
   [], [], [], 0⟩

/-- Fixture for the C1 witness, instance-based engine: a running
eligible instance with one unencrypted attached volume; the job runs to
the completed outcome. -/
def c1InstCloud : Cloud :=
  ⟨[⟨"vol-1", false, none, "in-use", [⟨"i-1", "/dev/sdf"⟩], some [⟨"Name", "data"⟩], 8,
     "eu-west-1a", false⟩],
   [⟨"i-1", some [⟨"Name", "web"⟩], none, "running", StopBehavior.ok, "eu-west-1a"⟩],
   [], [], [], 0⟩

/-- Witness for C1 at concrete inputs of both engines. -/
theorem c1_witness :
    (∃ (iid : String) (v : Volume) (a : Attachment) (arest : List Attachment)
      (ev : Volume),
      (("vol-1", some "i-1", some "web", some "data") : EncryptEbs.Candidate).2.1 =
        some iid ∧
      c1Cloud.findVolume
        (("vol-1", some "i-1", some "web", some "data") : EncryptEbs.Candidate).1 =
        some v ∧
      v.attachments = a :: arest ∧
      (∀ s ∈ (EncryptEbs.process_volume c1Cloud "kms"
                ("vol-1", some "i-1", some "web", some "data")).1.snapshots,
         s.snapshotId ≠ "snap-" ++ toString c1Cloud.nextId) ∧
      ("snap-" ++ toString (c1Cloud.nextId + 1), v.availabilityZone) ∉
        (EncryptEbs.process_volume c1Cloud "kms"
          ("vol-1", some "i-1", some "web", some "data")).1.fsr ∧
      (EncryptEbs.process_volume c1Cloud "kms"
          ("vol-1", some "i-1", some "web", some "data")).1.findVolume
        ("vol-" ++ toString (c1Cloud.nextId + 2)) = some ev ∧
      ev.encrypted = true ∧
      ev.attachments = [⟨iid, a.device⟩]) ∧
    ((∀ s ∈ (EncryptInstances.encrypt_volumes c1InstCloud "i-1" "kms").1.snapshots,
        s.encrypted = false → s ∈ c1InstCloud.snapshots) ∧
     (∀ p ∈ (EncryptInstances.encrypt_volumes c1InstCloud "i-1" "kms").1.fsr,
        p ∈ c1InstCloud.fsr) ∧
     (∀ x y d, CloudCall.attachVolume x y d ∈
         (EncryptInstances.encrypt_volumes c1InstCloud "i-1" "kms").2.1 →
        y = "i-1" ∧ ∃ v, v ∈ EncryptInstances.instanceVolumes c1InstCloud "i-1" ∧
          v.encrypted = false ∧
          (∃ a0 arest0, v.attachments = a0 :: arest0 ∧ d = a0.device) ∧
          ∃ ev, (EncryptInstances.encrypt_volumes c1InstCloud "i-1" "kms").1.findVolume
              x = some ev ∧ ev.encrypted = true) ∧
     (∀ v ∈ EncryptInstances.instanceVolumes c1InstCloud "i-1", v.encrypted = false →
        ∃ a0 arest0 x, v.attachments = a0 :: arest0 ∧
          CloudCall.attachVolume x "i-1" a0.device ∈
            (EncryptInstances.encrypt_volumes c1InstCloud "i-1" "kms").2.1)) :=
  ⟨c1_done_job_invariants.1 c1Cloud "kms" ("vol-1", some "i-1", some "web", some "data")
    (EncryptEbs.process_volume c1Cloud "kms"
      ("vol-1", some "i-1", some "web", some "data")).1
    (EncryptEbs.process_volume c1Cloud "kms"
      ("vol-1", some "i-1", some "web", some "data")).2.1
    (by rfl),
   c1_done_job_invariants.2 c1InstCloud "i-1" "kms"
    (EncryptInstances.encrypt_volumes c1InstCloud "i-1" "kms").1
    (EncryptInstances.encrypt_volumes c1InstCloud "i-1" "kms").2.1
    (by rfl)⟩
